import Mathlib

/-!
# Ark: credit ledger and session lifecycle

A shallow embedding of `src/models/User.js`, `src/controllers/UserController.js`,
`src/controllers/AuthController.js`, `src/middleware/auth.js`, `src/models/Session.js`,
the user update of `src/routes/admin.js`, and the Redis binding that `src/app.js` and
`src/config/database.js` give the controllers.

Conventions of the embedding

* MongoDB collections are lists of documents; `findById` / `findOne` return the
  first match, `save()` of a loaded document updates the first stored document
  with the same `_id` (an `updateOne` by `_id`).
* ObjectIds, tokens and reference ids are strings; the cast of a request string to an
  ObjectId is the driver's (`Env.castObjectId`). A character of a string is one code unit
  of the JavaScript string (strings lie in the Basic Multilingual Plane).
* JavaScript Numbers are embedded on the integers, and every sum or difference is rounded
  as IEEE-754 binary64 rounds it (`roundNumber`). A time, a duration or a count `n : Int`
  stands for the Number of value `n`. A credit or an amount `n : Int` stands for the
  Number `n * 2 ^ (-u)`, a multiple of a binary unit `2 ^ (-u)` that is the same for all
  credits and amounts of a statement and otherwise free, `0 ≤ u ≤ 1074`: with `u = 0` the
  integers are whole credits, and every finite Number, fractions included, is a multiple
  of `2 ^ (-1074)`. Order, sign, negation and the rounding to 53 binary digits are the same
  in every unit. `NaN`, the infinities and results beyond the largest finite Number are
  outside the embedding.
* Every source of nondeterminism is an explicit argument: the results of
  `crypto.randomBytes(16).toString('hex')` and of `Math.random()`, the `_id` of a
  new document, the clock, and the libraries `jsonwebtoken`, `bcryptjs` and `bson`, the
  time zone and the case mappings of the host (fields of `Env`).
* Stored documents pass the validators of their schema; `save()` of a loaded
  document is modelled on the paths it modifies.
* A thrown JavaScript exception is a value of `JsError`; `try / catch` is a
  `match` on `Except`.
-/

namespace Ark

/-! ## Exceptions -/

/-- Exceptions thrown inside the modelled code. -/
inductive JsError where
  /-- The result of `new Error(message)`. -/
  | error (message : String)
  /-- Mongoose `ValidationError` raised by `save()`; the argument is the failing path. -/
  | validationError (path : String)
  /-- Mongoose `DocumentNotFoundError`: `save()` of a loaded document matched nothing. -/
  | documentNotFound
  /-- Reading an identifier that is bound nowhere in scope. -/
  | referenceError (ident : String)
  /-- Property access on `undefined` or `null`. -/
  | typeError
  /-- Mongoose `CastError`: a query value that the schema type of the path refuses. -/
  | castError (path : String)
  /-- The `TokenExpiredError` of jsonwebtoken. -/
  | tokenExpiredError
  /-- The `JsonWebTokenError` of jsonwebtoken (malformed, bad signature). -/
  | jsonWebTokenError
  /-- The `NotBeforeError` of jsonwebtoken. -/
  | notBeforeError
  /-- MongoDB E11000 duplicate key error (a unique index). -/
  | duplicateKey (index : String)
  deriving DecidableEq, Repr

/-- The `name` property of the exception. -/
def JsError.name : JsError → String
  | .error _ => "Error"
  | .validationError _ => "ValidationError"
  | .documentNotFound => "DocumentNotFoundError"
  | .referenceError _ => "ReferenceError"
  | .typeError => "TypeError"
  | .castError _ => "CastError"
  | .tokenExpiredError => "TokenExpiredError"
  | .jsonWebTokenError => "JsonWebTokenError"
  | .notBeforeError => "NotBeforeError"
  | .duplicateKey _ => "MongoServerError"

/-- The `message` property of the exception: the text itself for `Error` and
`ReferenceError`, a representative text for the exceptions raised by libraries (the code
compares messages only against its own two `Error` texts). -/
def JsError.message : JsError → String
  | .error m => m
  | .validationError p => "Validation failed: " ++ p
  | .documentNotFound => "No document found"
  | .referenceError i => i ++ " is not defined"
  | .typeError => "Cannot read properties of undefined"
  | .castError p => "Cast to ObjectId failed at path " ++ p
  | .tokenExpiredError => "jwt expired"
  | .jsonWebTokenError => "invalid token"
  | .notBeforeError => "jwt not active"
  | .duplicateKey i => "E11000 duplicate key error: " ++ i

/-! ## JavaScript Numbers -/

/-- The spacing of the Numbers at the magnitude `m`, searched upwards from the power of two
`p`: the least `p` with `m < 2 ^ 53 * p`. It is 1 below `2 ^ 53`, where every integer is a
Number, and doubles with every further binary digit; counted in a binary unit `2 ^ (-u)`,
`u ≤ 1074`, the spacing of the multiples of the unit is the same. The first argument bounds
the search; `m` itself is enough. -/
def numberSpacing (m : Nat) : Nat → Nat → Nat
  | 0, p => p
  | fuel + 1, p => if m < 2 ^ 53 * p then p else numberSpacing m fuel (2 * p)

/-- The Number nearest to the integer `n` (IEEE-754 binary64, round to nearest, ties to the
even significand): `n` itself up to magnitude `2 ^ 53`, the nearest multiple of the
spacing beyond. For `n` counted in the unit `2 ^ (-u)` it is the Number nearest to
`n * 2 ^ (-u)`, counted in the same unit: a 53-digit multiple of the unit is a Number, and
a longer one lies in the normal range, where rounding keeps 53 digits. -/
def roundNumber (n : Int) : Int :=
  let m := n.natAbs
  let p := numberSpacing m m 1
  let q := m / p
  let r := m % p
  let q1 := if p < 2 * r ∨ (p = 2 * r ∧ q % 2 = 1) then q + 1 else q
  if n < 0 then -((q1 * p : Nat) : Int) else ((q1 * p : Nat) : Int)

/-- The JavaScript `a + b` on Numbers. -/
def jsAdd (a b : Int) : Int := roundNumber (a + b)

/-- The JavaScript `a - b` on Numbers. -/
def jsSub (a b : Int) : Int := roundNumber (a - b)

/-! ## The environment -/

/-- The payload of a token: what `jwt.sign` is given and `jwt.verify` returns. -/
structure JwtPayload where
  userId : Option String := none
  username : Option String := none
  userType : Option String := none
  applicationId : Option String := none
  tokenType : Option String := none
  deriving DecidableEq, Repr

/-- The process environment, the libraries and the host. `jwtSign payload secret expiresIn
now` and `jwtVerify token secret now` stand for `jwt.sign` and `jwt.verify` of
`jsonwebtoken` evaluated at the instant `now`; both may throw. `bcryptHash password` stands
for `bcrypt.hash(password, await bcrypt.genSalt(12))`, `bcryptCompare candidate hash` for
`bcrypt.compare`, and `emailMatch` for the regular expression of the schema option `match`
on `email`. `castObjectId` is the cast of a string to an ObjectId by Mongoose and `bson`:
the id in its canonical form, or `none` when the string is refused (a `CastError`).
`localTime` and `utc` are the conversions `LocalTime` and `UTC` of the host's time zone on
time values; `toUpperCase` and `toLowerCase` are `String.prototype.toUpperCase` and
`String.prototype.toLowerCase`. -/
structure Env where
  JWT_SECRET : String
  JWT_REFRESH_SECRET : String
  ACCESS_TOKEN_EXPIRY : String
  REFRESH_TOKEN_EXPIRY : String
  jwtSign : JwtPayload → String → String → Nat → Except JsError String
  jwtVerify : String → String → Nat → Except JsError JwtPayload
  bcryptHash : String → String
  bcryptCompare : String → String → Bool
  emailMatch : String → Bool
  castObjectId : String → Option String
  localTime : Int → Int
  utc : Int → Int
  toUpperCase : String → String
  toLowerCase : String → String

/-! ## Data model (`models/User.js`) -/

/-- An element of `User.creditHistory`. -/
structure CreditEntry where
  amount : Int
  type : String
  description : String
  referenceId : String
  /-- Schema default `Date.now`. -/
  timestamp : Nat
  metadata : Option String := none
  deriving DecidableEq, Repr

/-- An element of `User.referrals`. -/
structure Referral where
  userId : String
  joinedAt : Nat
  commissionEarned : Option Int := none
  deriving DecidableEq, Repr

/-- An element of `User.contacts` (`ContactSchema`). -/
structure Contact where
  type : String
  value : String
  verified : Bool := false
  isPrimary : Bool := false
  deriving DecidableEq, Repr

/-- A document of the `User` collection (the fields the controllers read or write).
`password` holds the stored bcrypt hash. -/
structure User where
  _id : String
  username : String
  email : Option String := none
  password : String := ""
  firstName : Option String := none
  lastName : Option String := none
  country : Option String := none
  city : Option String := none
  credit : Int := 0
  creditHistory : List CreditEntry := []
  userType : String := "user"
  affiliateCode : Option String := none
  referredBy : Option String := none
  contacts : List Contact := []
  referrals : List Referral := []
  commissionRate : Int := 10
  isVerified : Bool := false
  isActive : Bool := true
  twoFactorEnabled : Bool := false
  lastLogin : Option Nat := none
  loginCount : Nat := 0
  deriving DecidableEq, Repr

/-- The `enum` of `creditHistory.type`. -/
def creditTypes : List String :=
  ["deposit", "withdrawal", "transfer_sent", "transfer_received", "purchase", "commission"]

/-- The query `findOne({ _id: id })` for an ObjectId `id`: the first stored document with
that `_id`. -/
def findById (users : List User) (id : String) : Option User :=
  users.find? (fun u => decide (u._id = id))

/-- The call `User.findById(id)` with a string taken from a request: the string is cast to
an ObjectId, which throws a `CastError` when it is refused, and the collection is
searched for the id. -/
def User.findById (env : Env) (users : List User) (id : String) :
    Except JsError (Option User) :=
  match env.castObjectId id with
  | none => .error (.castError "_id")
  | some objectId => .ok (Ark.findById users objectId)

/-- The MongoDB `updateOne({ _id: id }, ...)`: the first document with that `_id` is rewritten. -/
def updateOne (users : List User) (id : String) (f : User → User) : List User :=
  match users with
  | [] => []
  | u :: rest => if u._id = id then f u :: rest else u :: updateOne rest id f

/-- The update `doc.save()` sends for a loaded user document `loaded` after `credit` was
assigned `newCredit` and one entry was pushed onto `creditHistory`, applied to the stored
document `u`: `$set: { credit }` only when the value was modified, and
`$push: { creditHistory }`. -/
def savedDoc (loaded : User) (newCredit : Int) (entry : CreditEntry) (u : User) : User :=
  { u with
    credit := if newCredit ≠ loaded.credit then newCredit else u.credit
    creditHistory := u.creditHistory ++ [entry] }

/-- The call `doc.save()` for a loaded user document `loaded` after `credit` was assigned
`newCredit` and one entry was pushed onto `creditHistory`.

Mongoose validates the modified paths before writing: `credit` (schema `min: 0`) when its
value changed, and the new subdocument (`type` against its `enum`). The write is an
`updateOne` by `_id`; it throws when no stored document has the `_id`. -/
def saveCreditPush (users : List User) (loaded : User) (newCredit : Int) (entry : CreditEntry) :
    Except JsError (List User) :=
  if newCredit ≠ loaded.credit ∧ newCredit < 0 then
    .error (.validationError "credit")
  else if entry.type ∉ creditTypes then
    .error (.validationError "creditHistory.type")
  else if (findById users loaded._id).isNone then
    .error .documentNotFound
  else
    .ok (updateOne users loaded._id (savedDoc loaded newCredit entry))

/-- The method `UserSchema.methods.addCredit` called on the loaded document `self`.
`ref` is the value of `require('crypto').randomBytes(16).toString('hex')`, `now` the clock.
The result is the outcome of the promise and the collection afterwards. -/
def addCredit (users : List User) (self : User) (amount : Int) (type description : String)
    (metadata : Option String) (ref : String) (now : Nat) :
    Except JsError User × List User :=
  let entry : CreditEntry :=
    { amount := amount, type := type, description := description, metadata := metadata,
      referenceId := ref, timestamp := now }
  let self1 : User :=
    { self with
      credit := jsAdd self.credit amount, creditHistory := self.creditHistory ++ [entry] }
  match saveCreditPush users self self1.credit entry with
  | .ok users1 => (.ok self1, users1)
  | .error e => (.error e, users)

/-- The object `transferCredit` resolves to. -/
structure TransferResult where
  success : Bool
  transactionId : String
  newBalance : Int
  deriving DecidableEq, Repr

/-- The entry `transferCredit` pushes onto the sender's history. -/
def sentEntry (toUserId : String) (amount : Int) (description ref : String) (now : Nat) :
    CreditEntry :=
  { amount := -amount, type := "transfer_sent",
    description := "Transfer to " ++ toUserId ++ ": " ++ description,
    referenceId := ref, timestamp := now }

/-- The entry `transferCredit` pushes onto the recipient's history. -/
def receivedEntry (fromUserId : String) (amount : Int) (description ref : String) (now : Nat) :
    CreditEntry :=
  { amount := amount, type := "transfer_received",
    description := "Transfer from " ++ fromUserId ++ ": " ++ description,
    referenceId := ref, timestamp := now }

/-- The body of the `try` block of `UserSchema.methods.transferCredit`, run against the
snapshot `users` of the transaction. `ref1` and `ref2` are the two values of
`randomBytes(16).toString('hex')`, in call order. -/
def transferCreditTry (env : Env) (users : List User) (self : User) (toUserId : String)
    (amount : Int) (description : String) (ref1 ref2 : String) (now : Nat) :
    Except JsError (TransferResult × List User) :=
  -- Vérifier le solde
  if self.credit < amount then
    .error (.error "Insufficient credit")
  else
    -- Débiter l'expéditeur
    let sent := sentEntry toUserId amount description ref1 now
    let self1 : User :=
      { self with
        credit := jsSub self.credit amount, creditHistory := self.creditHistory ++ [sent] }
    match saveCreditPush users self self1.credit sent with
    | .error e => .error e
    | .ok tx1 =>
      -- Créditer le destinataire
      match User.findById env tx1 toUserId with
      | .error e => .error e
      | .ok none => .error (.error "Recipient not found")
      | .ok (some recipient) =>
        let received := receivedEntry self._id amount description ref2 now
        match saveCreditPush tx1 recipient (jsAdd recipient.credit amount) received with
        | .error e => .error e
        | .ok tx2 =>
          .ok ({ success := true
                 transactionId := (self1.creditHistory.getLastD sent).referenceId
                 newBalance := self1.credit }, tx2)

/-- The method `UserSchema.methods.transferCredit` called on the loaded document `self`:
the `try` body runs inside a MongoDB transaction, which is committed when the body
returns and aborted (the collection is left as it was) when it throws; the exception is
rethrown. -/
def transferCredit (env : Env) (users : List User) (self : User) (toUserId : String)
    (amount : Int) (description : String) (ref1 ref2 : String) (now : Nat) :
    Except JsError TransferResult × List User :=
  match transferCreditTry env users self toUserId amount description ref1 ref2 now with
  | .ok (result, committed) => (.ok result, committed)
  | .error e => (.error e, users)

/-! ## `controllers/UserController.js` -/

/-- A JSON response: `res.status(status).json(...)`. -/
structure Response where
  status : Nat := 200
  success : Bool
  error : Option String := none
  message : Option String := none
  code : Option String := none
  details : Option String := none
  deriving DecidableEq, Repr

/-- The body of a `transferCredit` request. An absent field is `none`. -/
structure TransferBody where
  toUserId : Option String
  amount : Option Int
  description : Option String := none
  deriving DecidableEq, Repr

/-- JavaScript `!x` for an optional string. -/
def falsyString : Option String → Bool
  | none => true
  | some s => decide (s = "")

/-- JavaScript `!x` for an optional number. -/
def falsyNumber : Option Int → Bool
  | none => true
  | some n => decide (n = 0)

/-- The handler `UserController.transferCredit`; `userId` is `req.user._id`. The result is
the response, the `data` of a successful response and the collection afterwards. -/
def UserController.transferCredit (env : Env) (users : List User) (userId : String)
    (body : TransferBody) (ref1 ref2 : String) (now : Nat) :
    Response × Option TransferResult × List User :=
  if falsyString body.toUserId || falsyNumber body.amount then
    ({ status := 400, success := false, error := some "Recipient and amount are required" },
      none, users)
  else
    let toUserId := body.toUserId.getD ""
    let amount := body.amount.getD 0
    if amount ≤ 0 then
      ({ status := 400, success := false, error := some "Amount must be greater than 0" },
        none, users)
    else
      let outcome : Except JsError TransferResult × List User :=
        match findById users userId with
        | none => (.error .typeError, users)
        | some user =>
          Ark.transferCredit env users user toUserId amount (body.description.getD "") ref1 ref2
            now
      match outcome with
      | (.ok result, users1) =>
        ({ success := true, message := some "Credit transfer successful" }, some result, users1)
      | (.error e, users1) =>
        if e.message = "Insufficient credit" then
          ({ status := 400, success := false, error := some "Insufficient credit balance" },
            none, users1)
        else if e.message = "Recipient not found" then
          ({ status := 404, success := false, error := some "Recipient not found" },
            none, users1)
        else
          ({ status := 500, success := false, error := some "Credit transfer failed" },
            none, users1)

/-! ## Operation sequences of the ledger -/

/-- A ledger operation: a call of one of the two methods of `User` that write `credit`,
on an in-memory document `self` (freshly loaded or not), with its arguments, the random
reference ids it draws and the clock. -/
inductive LedgerOp where
  | addCredit (self : User) (amount : Int) (type description : String)
      (metadata : Option String) (ref : String) (now : Nat)
  | transferCredit (self : User) (toUserId : String) (amount : Int)
      (description ref1 ref2 : String) (now : Nat)
  deriving DecidableEq, Repr

/-- The collection after one ledger operation. -/
def LedgerOp.apply (env : Env) (users : List User) : LedgerOp → List User
  | .addCredit self amount type description metadata ref now =>
    (Ark.addCredit users self amount type description metadata ref now).2
  | .transferCredit self toUserId amount description ref1 ref2 now =>
    (Ark.transferCredit env users self toUserId amount description ref1 ref2 now).2

/-- The collection after a finite sequence of ledger operations. -/
def runLedger (env : Env) (users : List User) (ops : List LedgerOp) : List User :=
  ops.foldl (LedgerOp.apply env) users

/-- The stored credit of user `id` (`none` when no such user exists). -/
def creditOf (users : List User) (id : String) : Option Int :=
  (findById users id).map (·.credit)

/-- The stored credit history of user `id`. -/
def historyOf (users : List User) (id : String) : Option (List CreditEntry) :=
  (findById users id).map (·.creditHistory)

/-- Every stored credit is non-negative (the schema bound `min: 0` on `credit`). -/
def CreditsNonneg (users : List User) : Prop := ∀ u ∈ users, 0 ≤ u.credit

instance (users : List User) : Decidable (CreditsNonneg users) := by
  unfold CreditsNonneg; infer_instance

/-- User A of the scenarios, holding 100. -/
def alice : User := { _id := "aaaaaaaaaaaaaaaaaaaaaaaa", username := "alice", credit := 100 }

/-- User B of the scenarios, holding 10. -/
def bob : User := { _id := "bbbbbbbbbbbbbbbbbbbbbbbb", username := "bob", credit := 10 }


/-! ## Sessions and the revocation cache (`models/Session.js`, Redis) -/

/-- A document of the `Application` collection (the fields the controllers read). -/
structure Application where
  _id : String
  name : String
  isActive : Bool := true
  deriving DecidableEq, Repr

/-- A document of the `Session` collection. Instants are milliseconds since the epoch. -/
structure Session where
  _id : String
  userId : String
  applicationId : Option String := none
  accessToken : String
  refreshToken : String
  ipAddress : Option String := none
  userAgent : Option String := none
  expiresAt : Int
  isRevoked : Bool := false
  revokedAt : Option Nat := none
  lastActivity : Nat
  createdAt : Nat
  deriving DecidableEq, Repr

/-- A key of the Redis store, its value and the instant at which it lapses. -/
structure CacheEntry where
  key : String
  value : String
  expireAt : Nat
  deriving DecidableEq, Repr

/-- The durable store, the content of the Redis server and the clock. -/
structure State where
  users : List User
  applications : List Application := []
  sessions : List Session
  redis : List CacheEntry
  now : Nat
  deriving DecidableEq, Repr

/-- The command `GET key` on the server at the instant `now`: the value of the live entry,
if any. -/
def redisGet (redis : List CacheEntry) (now : Nat) (key : String) : Option String :=
  (redis.find? fun e => decide (e.key = key) && decide (now < e.expireAt)).map (·.value)

/-- The command `SETEX key seconds value` on the server at the instant `now`. -/
def redisSetex (redis : List CacheEntry) (now : Nat) (key : String) (seconds : Nat)
    (value : String) : List CacheEntry :=
  { key := key, value := value, expireAt := now + seconds * 1000 } ::
    redis.filter (fun e => !decide (e.key = key))

/-- A connected client of the `redis` package. -/
structure RedisClient where
  deriving DecidableEq, Repr

/-- The value that `AuthController.js` and `middleware/auth.js` bind, when they are loaded,
with `const redis = require('../config/database').redisClient`.

`config/database.js` exports one `Database` object; its constructor sets
`this.redisClient = null` and only `connectRedis()` assigns a client. The constructor of
`App` calls the asynchronous `initializeDatabase()` without awaiting it (it is suspended at
`await database.connectMongoDB()`) and goes on to `initializeRoutes()`, whose `require`
calls load the routes, the controllers and the middleware: they read the property while
it is `null`, and a `const` is never bound again. -/
def redisClient : Option RedisClient := none

/-- The call `redis.get(key)` through the module-level binding: reading `get` of `null`
throws a `TypeError`. -/
def redisClientGet (redis : List CacheEntry) (now : Nat) (key : String) :
    Except JsError (Option String) :=
  match redisClient with
  | none => .error .typeError
  | some _ => .ok (redisGet redis now key)

/-- The call `redis.setex(key, seconds, value)` through the module-level binding: reading
`setex` of `null` throws a `TypeError`. -/
def redisClientSetex (redis : List CacheEntry) (now : Nat) (key : String) (seconds : Nat)
    (value : String) : Except JsError (List CacheEntry) :=
  match redisClient with
  | none => .error .typeError
  | some _ => .ok (redisSetex redis now key seconds value)

/-- The key under which a token is blacklisted. -/
def revokedKey (token : String) : String := "token:revoked:" ++ token

/-- The MongoDB `updateOne({ _id: id }, ...)` on sessions. -/
def updateSession (sessions : List Session) (id : String) (f : Session → Session) :
    List Session :=
  match sessions with
  | [] => []
  | x :: rest => if x._id = id then f x :: rest else x :: updateSession rest id f

/-- The call `session.save()` after `isRevoked = true` and `revokedAt = new Date()` were
assigned on the loaded document `doc`: the modified paths are written to the stored
document with the same `_id`; nothing is sent when no path was modified. -/
def saveRevoked (sessions : List Session) (doc : Session) (now : Nat) :
    Except JsError (List Session) :=
  if doc.isRevoked = true ∧ doc.revokedAt = some now then
    .ok sessions
  else if (sessions.find? fun x => decide (x._id = doc._id)).isNone then
    .error .documentNotFound
  else
    .ok (updateSession sessions doc._id fun x =>
      { x with
        isRevoked := if doc.isRevoked = true then x.isRevoked else true
        revokedAt := if doc.revokedAt = some now then x.revokedAt else some now })

/-- The call `session.save()` after `lastActivity = new Date()` was assigned. -/
def saveActivity (sessions : List Session) (doc : Session) (now : Nat) :
    Except JsError (List Session) :=
  if doc.lastActivity = now then
    .ok sessions
  else if (sessions.find? fun x => decide (x._id = doc._id)).isNone then
    .error .documentNotFound
  else
    .ok (updateSession sessions doc._id fun x => { x with lastActivity := now })

/-- The call `new Session(doc).save()`: `expiresAt` is required and must be a valid date;
`accessToken` and `refreshToken` carry unique indexes. -/
def insertSession (sessions : List Session) (expiresAt : Option Int)
    (doc : Int → Session) : Except JsError (List Session) :=
  match expiresAt with
  | none => .error (.validationError "expiresAt")
  | some t =>
    if sessions.any (fun x => decide (x.accessToken = (doc t).accessToken)) then
      .error (.duplicateKey "accessToken")
    else if sessions.any (fun x => decide (x.refreshToken = (doc t).refreshToken)) then
      .error (.duplicateKey "refreshToken")
    else
      .ok (sessions ++ [doc t])

/-! ## JavaScript string helpers -/

/-- The JavaScript `s.split(sep)` for a one-character separator, on character lists. -/
def jsSplit (sep : Char) : List Char → List (List Char)
  | [] => [[]]
  | c :: cs =>
    if c = sep then [] :: jsSplit sep cs
    else
      match jsSplit sep cs with
      | [] => [[c]]
      | p :: ps => (c :: p) :: ps

/-- The JavaScript `s.startsWith(p)`. -/
def jsStartsWith (s p : String) : Bool := p.toList.isPrefixOf s.toList

/-- The expression `authHeader.split(' ')[1]`. -/
def bearerToken (authHeader : String) : String :=
  String.mk ((jsSplit ' ' authHeader.toList).getD 1 [])

/-- The value of a decimal or hexadecimal digit. -/
def digitValue (c : Char) : Option Nat :=
  if '0' ≤ c ∧ c ≤ '9' then some (c.toNat - '0'.toNat)
  else if 'a' ≤ c ∧ c ≤ 'f' then some (c.toNat - 'a'.toNat + 10)
  else if 'A' ≤ c ∧ c ≤ 'F' then some (c.toNat - 'A'.toNat + 10)
  else none

/-- The longest leading run of digits of the radix, read as a number; `none` when the run
is empty. -/
def parseDigits (radix : Nat) (acc : Option Nat) : List Char → Option Nat
  | [] => acc
  | c :: cs =>
    match digitValue c with
    | some d => if d < radix then parseDigits radix (some (acc.getD 0 * radix + d)) cs else acc
    | none => acc

/-- White space in the sense of the JavaScript `StringToNumber` grammar. -/
def jsIsWhitespace (c : Char) : Bool :=
  c.toNat ∈ [0x20, 0x09, 0x0A, 0x0B, 0x0C, 0x0D, 0xA0, 0x1680, 0x2028, 0x2029, 0x202F, 0x205F,
    0x3000, 0xFEFF] || (0x2000 ≤ c.toNat && c.toNat ≤ 0x200A)

/-- The JavaScript `parseInt(s)` without radix; `none` is `NaN`. Leading white space is
skipped, a sign is read, a leading `0x` selects radix 16, and parsing stops at the first
character that is not a digit; the result is the Number nearest to the integer read. -/
def parseInt (s : String) : Option Int :=
  let cs := s.toList.dropWhile jsIsWhitespace
  let (neg, cs) :=
    match cs with
    | '-' :: rest => (true, rest)
    | '+' :: rest => (false, rest)
    | _ => (false, cs)
  let magnitude :=
    match cs with
    | '0' :: 'x' :: rest => parseDigits 16 none rest
    | '0' :: 'X' :: rest => parseDigits 16 none rest
    | _ => parseDigits 10 none cs
  magnitude.map fun m => roundNumber (if neg then -(m : Int) else (m : Int))

/-! ## `controllers/AuthController.js` -/

/-- The fields of the Express request that `generateTokens` names. -/
structure Request where
  ip : Option String := none
  userAgent : Option String := none
  deriving DecidableEq, Repr

/-- The object `generateTokens` returns; `expiresIn = none` is `NaN`. -/
structure TokenPair where
  accessToken : String
  refreshToken : String
  expiresIn : Option Int
  tokenType : String := "Bearer"
  deriving DecidableEq, Repr

/-- Evaluation of an identifier that no enclosing scope binds: JavaScript throws a
`ReferenceError` (optional chaining `x?.p` guards a `null` or `undefined` value of `x`, not
an undeclared `x`). -/
def unboundIdentifier {α : Type} (ident : String) : Except JsError α :=
  .error (.referenceError ident)

/-- The abstract operation `TimeClip` of a `Date`: a time value beyond 8.64e15 ms on either
side of the epoch is an invalid date (`none`). -/
def timeClip (t : Int) : Option Int :=
  if t.natAbs ≤ 8640000000000000 then some t else none

/-- The date `generateTokens` computes for the session it builds, in milliseconds since the
epoch: `new Date()` changed by `setSeconds(getSeconds() + parseInt(ACCESS_TOKEN_EXPIRY) * 60)`.
`setSeconds` works on the local time: it replaces the seconds of `LocalTime(now)`, which
moves the local time by the seconds added, and stores `TimeClip(UTC(..))` of the result.
`none` is an invalid date (`parseInt` yields `NaN`, or the result is out of range). -/
def AuthController.expiresAt (env : Env) (now : Nat) : Option Int :=
  (parseInt env.ACCESS_TOKEN_EXPIRY).bind fun minutes =>
    timeClip (env.utc (env.localTime now + minutes * 60 * 1000))

/-- The field `expiresIn` of the object `generateTokens` returns, in seconds:
`parseInt(process.env.ACCESS_TOKEN_EXPIRY) * 60`; `none` is `NaN`. -/
def AuthController.expiresIn (env : Env) : Option Int :=
  (parseInt env.ACCESS_TOKEN_EXPIRY).map fun minutes => roundNumber (minutes * 60)

/-- The method `AuthController.generateTokens(user, application)`; `newId` is the `_id` the
driver assigns to the new session.

The parameters are `user` and `application`, and the module binds `jwt`, `crypto`, `User`,
`Session`, `Application` and `redis`: the identifier `req` read by `ipAddress: req?.ip`
inside the argument of `new Session(...)` is bound nowhere. -/
def AuthController.generateTokens (env : Env) (s : State) (user : User)
    (application : Option Application) (newId : String) : Except JsError (TokenPair × State) := do
  let accessToken ← env.jwtSign
    { userId := some user._id, username := some user.username, userType := some user.userType,
      applicationId := application.map (·._id) }
    env.JWT_SECRET env.ACCESS_TOKEN_EXPIRY s.now
  let refreshToken ← env.jwtSign
    { userId := some user._id, tokenType := some "refresh" }
    env.JWT_REFRESH_SECRET env.REFRESH_TOKEN_EXPIRY s.now
  -- Calculer la date d'expiration
  let expiresAt : Option Int := AuthController.expiresAt env s.now
  -- Créer une session
  let req : Option Request ← unboundIdentifier "req"
  let sessions1 ← insertSession s.sessions expiresAt fun t =>
    { _id := newId, userId := user._id, applicationId := application.map (·._id),
      accessToken := accessToken, refreshToken := refreshToken,
      ipAddress := req.bind (·.ip), userAgent := req.bind (·.userAgent),
      expiresAt := t, lastActivity := s.now, createdAt := s.now }
  pure ({ accessToken := accessToken, refreshToken := refreshToken,
          expiresIn := AuthController.expiresIn env },
        { s with sessions := sessions1 })

/-- The query `Session.findOne({ refreshToken, isRevoked: false, expiresAt: { $gt: now } })`. -/
def findActiveByRefresh (sessions : List Session) (now : Nat) (token : String) :
    Option Session :=
  sessions.find? fun x =>
    decide (x.refreshToken = token) && !x.isRevoked && decide ((now : Int) < x.expiresAt)

/-- The query `Session.findOne({ accessToken, isRevoked: false, expiresAt: { $gt: now } })`. -/
def findActiveByAccess (sessions : List Session) (now : Nat) (token : String) :
    Option Session :=
  sessions.find? fun x =>
    decide (x.accessToken = token) && !x.isRevoked && decide ((now : Int) < x.expiresAt)

/-- The `catch` block of `AuthController.refreshToken`. -/
def AuthController.refreshTokenCatch (e : JsError) : Response :=
  if e.name = "TokenExpiredError" then
    { status := 401, success := false, error := some "Refresh token expired" }
  else
    { status := 500, success := false, error := some "Token refresh failed" }

/-- The handler `AuthController.refreshToken`; `refreshToken` is `req.body.refreshToken`.
The result is the response, the `data.tokens` of a successful response and the state
afterwards. -/
def AuthController.refreshToken (env : Env) (s : State) (refreshToken : Option String)
    (newId : String) : Response × Option TokenPair × State :=
  if falsyString refreshToken then
    ({ status := 400, success := false, error := some "Refresh token required" }, none, s)
  else
    let token := refreshToken.getD ""
    -- Vérifier le refresh token
    match env.jwtVerify token env.JWT_REFRESH_SECRET s.now with
    | .error e => (AuthController.refreshTokenCatch e, none, s)
    | .ok _ =>
      -- Vérifier la session
      match findActiveByRefresh s.sessions s.now token with
      | none =>
        ({ status := 401, success := false, error := some "Invalid or expired refresh token" },
          none, s)
      | some session =>
        -- Récupérer l'utilisateur
        match (findById s.users session.userId).filter (·.isActive) with
        | none =>
          ({ status := 401, success := false, error := some "User not found or inactive" },
            none, s)
        | some user =>
          -- Révoquer l'ancien access token
          match saveRevoked s.sessions session s.now with
          | .error e => (AuthController.refreshTokenCatch e, none, s)
          | .ok sessions1 =>
            let s1 : State := { s with sessions := sessions1 }
            -- Mettre le token dans la liste noire Redis
            match redisClientSetex s1.redis s.now (revokedKey session.accessToken) 3600 "true"
              with
            | .error e => (AuthController.refreshTokenCatch e, none, s1)
            | .ok redis1 =>
              let s2 : State := { s1 with redis := redis1 }
              -- Générer de nouveaux tokens
              let application := session.applicationId.bind fun id =>
                s.applications.find? fun a => decide (a._id = id)
              match AuthController.generateTokens env s2 user application newId with
              | .error e => (AuthController.refreshTokenCatch e, none, s2)
              | .ok (tokens, s3) =>
                ({ success := true, message := some "Token refreshed successfully" },
                  some tokens, s3)

/-- The handler `AuthController.logout`; `session` is `req.session` (`none` when no
middleware attached one). -/
def AuthController.logout (s : State) (session : Option Session) : Response × State :=
  match session with
  | none => ({ status := 500, success := false, error := some "Logout failed" }, s)
  | some session =>
    -- Révoquer la session
    match saveRevoked s.sessions session s.now with
    | .error _ => ({ status := 500, success := false, error := some "Logout failed" }, s)
    | .ok sessions1 =>
      let s1 : State := { s with sessions := sessions1 }
      -- Mettre les tokens dans la liste noire Redis
      match redisClientSetex s1.redis s.now (revokedKey session.accessToken) 3600 "true" with
      | .error _ => ({ status := 500, success := false, error := some "Logout failed" }, s1)
      | .ok redis1 =>
        match redisClientSetex redis1 s.now (revokedKey session.refreshToken) 3600 "true" with
        | .error _ =>
          ({ status := 500, success := false, error := some "Logout failed" },
            { s1 with redis := redis1 })
        | .ok redis2 =>
          ({ success := true, message := some "Logout successful" },
            { s1 with redis := redis2 })

/-! ## `middleware/auth.js` -/

/-- What the middleware does with the request: it answers, or it calls `next()` having set
`req.user`, `req.session` and `req.token`. -/
inductive Outcome where
  | respond (response : Response)
  | next (user : User) (session : Session) (token : String)
  deriving DecidableEq, Repr

/-- The `catch` block of `AuthMiddleware.verifyToken`. -/
def AuthMiddleware.verifyTokenCatch (e : JsError) : Response :=
  if e.name = "TokenExpiredError" then
    { status := 401, success := false, error := some "Token expired",
      code := some "TOKEN_EXPIRED" }
  else if e.name = "JsonWebTokenError" then
    { status := 401, success := false, error := some "Invalid token",
      code := some "INVALID_TOKEN" }
  else
    { status := 500, success := false, error := some "Authentication failed" }

/-- The call `User.findById(decoded.userId)` of `verifyToken`: the claim is a string of the
token payload, cast to an ObjectId; a payload without the claim matches no document. -/
def findDecodedUser (env : Env) (users : List User) (decoded : JwtPayload) :
    Except JsError (Option User) :=
  match decoded.userId with
  | none => .ok none
  | some id => User.findById env users id

/-- The middleware `AuthMiddleware.verifyToken`; `authorization` is
`req.headers.authorization`. -/
def AuthMiddleware.verifyToken (env : Env) (s : State) (authorization : Option String) :
    Outcome × State :=
  if falsyString authorization || !jsStartsWith (authorization.getD "") "Bearer " then
    (.respond { status := 401, success := false, error := some "Access token required" }, s)
  else
    let token := bearerToken (authorization.getD "")
    -- Vérifier dans Redis si le token est révoqué
    match redisClientGet s.redis s.now (revokedKey token) with
    | .error e => (.respond (AuthMiddleware.verifyTokenCatch e), s)
    | .ok isRevoked =>
      if !falsyString isRevoked then
        (.respond { status := 401, success := false, error := some "Token has been revoked" },
          s)
      else
        match env.jwtVerify token env.JWT_SECRET s.now with
        | .error e => (.respond (AuthMiddleware.verifyTokenCatch e), s)
        | .ok decoded =>
          -- Vérifier la session dans la base de données
          match findActiveByAccess s.sessions s.now token with
          | none =>
            (.respond { status := 401, success := false,
                        error := some "Invalid or expired session" }, s)
          | some session =>
            -- Récupérer l'utilisateur
            match findDecodedUser env s.users decoded with
            | .error e => (.respond (AuthMiddleware.verifyTokenCatch e), s)
            | .ok found =>
              match found.filter (·.isActive) with
              | none =>
                (.respond { status := 401, success := false,
                            error := some "User not found or inactive" }, s)
              | some user =>
                -- Mettre à jour la dernière activité
                match saveActivity s.sessions session s.now with
                | .error e => (.respond (AuthMiddleware.verifyTokenCatch e), s)
                | .ok sessions1 =>
                  (.next user { session with lastActivity := s.now } token,
                    { s with sessions := sessions1 })

/-- The middleware `AuthMiddleware.checkRole(roles)`; `user` is `req.user`. The result is
the response it sends, `none` when it calls `next()`. -/
def AuthMiddleware.checkRole (roles : List String) (user : Option User) : Option Response :=
  match user with
  | none => some { status := 401, success := false, error := some "Authentication required" }
  | some u =>
    if u.userType ∈ roles then none
    else some { status := 403, success := false, error := some "Insufficient role privileges" }


/-! ## Registration and login (`controllers/AuthController.js`) -/

/-- The JavaScript `s.trim()`, on the white space of `jsIsWhitespace`. -/
def jsTrim (s : String) : String :=
  String.mk ((s.toList.dropWhile jsIsWhitespace).reverse.dropWhile jsIsWhitespace).reverse

/-- The `enum` of `ContactSchema.type`. -/
def contactTypes : List String := ["whatsapp", "telegram", "phone", "email", "other"]

/-- The `enum` of `userType`. -/
def userTypes : List String := ["user", "affiliate", "partner", "team", "admin"]

/-- The body of a `register` request, as the route validators let it through: `username`,
`email` and `password` are present. -/
structure RegisterBody where
  username : String
  email : String
  password : String
  firstName : Option String := none
  lastName : Option String := none
  country : Option String := none
  city : Option String := none
  contacts : Option (List Contact) := none
  affiliateCode : Option String := none
  deriving DecidableEq, Repr

/-- The body of a `login` request. -/
structure LoginBody where
  username : String
  password : String
  applicationId : Option String := none
  deriving DecidableEq, Repr

/-- The query `User.findOne({ $or: [{ username }, { email }] })`. Query values pass through
the setters of the schema (`trim` on `username`; `trim` and `lowercase` on `email`). -/
def findByUsernameOrEmail (env : Env) (users : List User) (username email : String) :
    Option User :=
  users.find? fun u =>
    decide (u.username = jsTrim username) ||
    decide (u.email = some (env.toLowerCase (jsTrim email)))

/-- The query `User.findOne({ affiliateCode })`. -/
def findByAffiliateCode (users : List User) (affiliateCode : String) : Option User :=
  users.find? fun u => decide (u.affiliateCode = some affiliateCode)

/-- The document `new User({ username, email, password, firstName, lastName, country, city,
contacts: contacts || [] })` with the `_id` the driver generates: setters applied, every
other path at its schema default. -/
def newUser (env : Env) (body : RegisterBody) (newId : String) : User :=
  { _id := newId
    username := jsTrim body.username
    email := some (env.toLowerCase (jsTrim body.email))
    password := body.password
    firstName := body.firstName.map jsTrim
    lastName := body.lastName.map jsTrim
    country := body.country.map jsTrim
    city := body.city.map jsTrim
    contacts := body.contacts.getD [] }

/-- The method `UserSchema.methods.generateAffiliateCode`; `code` is the string of eight
characters drawn with `Math.random()`. -/
def generateAffiliateCode (env : Env) (self : User) (code : String) : User :=
  { self with affiliateCode := some (env.toUpperCase (self.username.take 3) ++ code) }

/-- The validators of `UserSchema` on the paths the embedding carries. `required` rejects an
empty string; `match` lets an empty string through. -/
def validateUser (env : Env) (u : User) : Bool :=
  decide (u.username ≠ "") && decide (3 ≤ u.username.length) && decide (u.username.length ≤ 30) &&
  (match u.email with
    | none => true
    | some e => decide (e = "") || env.emailMatch e) &&
  decide (u.password ≠ "") && decide (8 ≤ u.password.length) &&
  decide (0 ≤ u.credit) &&
  u.creditHistory.all (fun e => decide (e.type ∈ creditTypes)) &&
  u.contacts.all (fun c => decide (c.type ∈ contactTypes) && decide (c.value ≠ "")) &&
  decide (u.userType ∈ userTypes) &&
  decide (0 ≤ u.commissionRate) && decide (u.commissionRate ≤ 100)

/-- The insertion of a user document: the unique indexes on `_id`, `username`, `email`
(sparse) and `affiliateCode` (sparse). -/
def insertUser (users : List User) (u : User) : Except JsError (List User) :=
  if users.any (fun v => decide (v._id = u._id)) then
    .error (.duplicateKey "_id")
  else if users.any (fun v => decide (v.username = u.username)) then
    .error (.duplicateKey "username")
  else if u.email.isSome && users.any (fun v => decide (v.email = u.email)) then
    .error (.duplicateKey "email")
  else if u.affiliateCode.isSome && users.any (fun v => decide (v.affiliateCode = u.affiliateCode)) then
    .error (.duplicateKey "affiliateCode")
  else
    .ok (users ++ [u])

/-- The call `user.save()` on a new user document: validation, then the `pre('save')`
hook hashing the password, then the insertion. The result is the collection and the
document as saved. -/
def saveNewUser (env : Env) (users : List User) (u : User) : Except JsError (List User × User) :=
  if !validateUser env u then
    .error (.validationError "User")
  else
    let hashed : User := { u with password := env.bcryptHash u.password }
    match insertUser users hashed with
    | .error e => .error e
    | .ok users1 => .ok (users1, hashed)

/-- The update `referrer.save()` sends after `referrer.referrals.push({ userId, joinedAt })`,
applied to the stored referrer. -/
def pushReferral (userId : String) (now : Nat) (u : User) : User :=
  { u with referrals := u.referrals ++ [{ userId := userId, joinedAt := now }] }

/-- The assignment `user.referredBy = referrer._id`. -/
def referTo (user referrer : User) : User :=
  { user with referredBy := some referrer._id }

/-- The `catch` block of `AuthController.register`. -/
def AuthController.registerCatch (e : JsError) : Response :=
  { status := 500, success := false, error := some "Registration failed",
    details := some e.message }

/-- The handler `AuthController.register`. `newUserId` is the `_id` of the new user
document, `code` the random part of its affiliate code, `newSessionId` the `_id` of the
session `generateTokens` is to create. The result is the response, the user and tokens of a
successful response, and the state afterwards. -/
def AuthController.register (env : Env) (s : State) (body : RegisterBody)
    (newUserId code newSessionId : String) : Response × Option (User × TokenPair) × State :=
  -- Vérifier si l'utilisateur existe déjà
  match findByUsernameOrEmail env s.users body.username body.email with
  | some _ =>
    ({ status := 400, success := false, error := some "Username or email already exists" },
      none, s)
  | none =>
    -- Créer l'utilisateur
    let user0 := newUser env body newUserId
    -- Gérer l'affiliation
    let referrer : Option User :=
      if falsyString body.affiliateCode then none
      else findByAffiliateCode s.users (body.affiliateCode.getD "")
    let user1 : User :=
      match referrer with
      | none => user0
      | some r => referTo user0 r
    let users1 : List User :=
      match referrer with
      | none => s.users
      | some r => updateOne s.users r._id (pushReferral user0._id s.now)
    -- Générer le code d'affiliation
    let user2 := generateAffiliateCode env user1 code
    match saveNewUser env users1 user2 with
    | .error e => (AuthController.registerCatch e, none, { s with users := users1 })
    | .ok (users2, saved) =>
      -- Générer des tokens
      match AuthController.generateTokens env { s with users := users2 } saved none
          newSessionId with
      | .error e => (AuthController.registerCatch e, none, { s with users := users2 })
      | .ok (tokens, s3) =>
        ({ status := 201, success := true, message := some "User registered successfully" },
          some (saved, tokens), s3)

/-- The query `User.findOne({ $or: [{ username }, { email: username }] })` of `login`. -/
def findByLogin (env : Env) (users : List User) (username : String) : Option User :=
  users.find? fun u =>
    decide (u.username = jsTrim username) ||
    decide (u.email = some (env.toLowerCase (jsTrim username)))

/-- The update `user.save()` sends after `lastLogin = new Date()` and `loginCount += 1` were
assigned on the loaded document, applied to the stored document. -/
def recordLogin (loaded : User) (now : Nat) (u : User) : User :=
  { u with lastLogin := some now, loginCount := loaded.loginCount + 1 }

/-- The lookup of `login`, `Application.findById(applicationId)` when `req.body` names an
application (`none` otherwise): the string is cast to an ObjectId. -/
def Application.findById (env : Env) (applications : List Application)
    (applicationId : Option String) : Except JsError (Option Application) :=
  if falsyString applicationId then .ok none
  else
    match env.castObjectId (applicationId.getD "") with
    | none => .error (.castError "_id")
    | some objectId => .ok (applications.find? fun a => decide (a._id = objectId))

/-- The handler `AuthController.login`. The result is the response, the user and tokens of
a successful response, and the state afterwards. -/
def AuthController.login (env : Env) (s : State) (body : LoginBody) (newSessionId : String) :
    Response × Option (User × TokenPair) × State :=
  -- Récupérer l'utilisateur avec le mot de passe
  match findByLogin env s.users body.username with
  | none => ({ status := 401, success := false, error := some "Invalid credentials" }, none, s)
  | some user =>
    -- Vérifier le mot de passe
    if !env.bcryptCompare body.password user.password then
      ({ status := 401, success := false, error := some "Invalid credentials" }, none, s)
    -- Vérifier si le compte est actif
    else if !user.isActive then
      ({ status := 403, success := false, error := some "Account is deactivated" }, none, s)
    else
      -- Vérifier l'application si applicationId est fourni
      match Application.findById env s.applications body.applicationId with
      | .error _ =>
        ({ status := 500, success := false, error := some "Login failed" }, none, s)
      | .ok found =>
        if !falsyString body.applicationId && !((found.map (·.isActive)).getD false) then
          ({ status := 400, success := false, error := some "Invalid or inactive application" },
            none, s)
        else
          -- Mettre à jour les statistiques de connexion
          let user1 := recordLogin user s.now user
          let s1 : State :=
            { s with users := updateOne s.users user._id (recordLogin user s.now) }
          -- Générer des tokens
          match AuthController.generateTokens env s1 user1 found newSessionId with
          | .error _ =>
            ({ status := 500, success := false, error := some "Login failed" }, none, s1)
          | .ok (tokens, s2) =>
            ({ success := true, message := some "Login successful" }, some (user1, tokens), s2)

/-! ## Profile, password and administration (`UserController.js`, `routes/admin.js`) -/

/-- An update document naming top-level paths of `User` (`none`: the path is absent). -/
structure UserUpdate where
  username : Option String := none
  email : Option String := none
  password : Option String := none
  firstName : Option String := none
  lastName : Option String := none
  country : Option String := none
  city : Option String := none
  credit : Option Int := none
  creditHistory : Option (List CreditEntry) := none
  contacts : Option (List Contact) := none
  userType : Option String := none
  affiliateCode : Option String := none
  referredBy : Option String := none
  referrals : Option (List Referral) := none
  commissionRate : Option Int := none
  isVerified : Option Bool := none
  isActive : Option Bool := none
  twoFactorEnabled : Option Bool := none
  deriving DecidableEq, Repr

/-- The `$set` of an update document applied to a stored user (setters applied). -/
def applyUpdate (env : Env) (upd : UserUpdate) (u : User) : User :=
  { u with
    username := (upd.username.map jsTrim).getD u.username
    email := match upd.email with
      | some e => some (env.toLowerCase (jsTrim e))
      | none => u.email
    password := upd.password.getD u.password
    firstName := match upd.firstName with
      | some v => some (jsTrim v)
      | none => u.firstName
    lastName := match upd.lastName with
      | some v => some (jsTrim v)
      | none => u.lastName
    country := match upd.country with
      | some v => some (jsTrim v)
      | none => u.country
    city := match upd.city with
      | some v => some (jsTrim v)
      | none => u.city
    credit := upd.credit.getD u.credit
    creditHistory := upd.creditHistory.getD u.creditHistory
    contacts := upd.contacts.getD u.contacts
    userType := upd.userType.getD u.userType
    affiliateCode := match upd.affiliateCode with
      | some v => some v
      | none => u.affiliateCode
    referredBy := match upd.referredBy with
      | some v => some v
      | none => u.referredBy
    referrals := upd.referrals.getD u.referrals
    commissionRate := upd.commissionRate.getD u.commissionRate
    isVerified := upd.isVerified.getD u.isVerified
    isActive := upd.isActive.getD u.isActive
    twoFactorEnabled := upd.twoFactorEnabled.getD u.twoFactorEnabled }

/-- The update validators (`runValidators: true`): the validators of the paths the update
document names. -/
def validateUpdate (env : Env) (upd : UserUpdate) : Bool :=
  (match upd.username with
    | none => true
    | some n => decide (jsTrim n ≠ "") && decide (3 ≤ (jsTrim n).length) &&
        decide ((jsTrim n).length ≤ 30)) &&
  (match upd.email with
    | none => true
    | some e => decide (jsTrim e = "") || env.emailMatch (env.toLowerCase (jsTrim e))) &&
  (match upd.password with
    | none => true
    | some p => decide (p ≠ "") && decide (8 ≤ p.length)) &&
  (match upd.credit with
    | none => true
    | some c => decide (0 ≤ c)) &&
  (match upd.creditHistory with
    | none => true
    | some h => h.all fun e => decide (e.type ∈ creditTypes)) &&
  (match upd.contacts with
    | none => true
    | some cs => cs.all fun c => decide (c.type ∈ contactTypes) && decide (c.value ≠ "")) &&
  (match upd.userType with
    | none => true
    | some t => decide (t ∈ userTypes)) &&
  (match upd.commissionRate with
    | none => true
    | some r => decide (0 ≤ r) && decide (r ≤ 100))

/-- The call `User.findByIdAndUpdate(id, update, { new: true, runValidators: true })`: the
updated document (`none` when no document has the `_id`) and the collection afterwards.
A value colliding with a unique index of another document is refused. -/
def findByIdAndUpdate (env : Env) (users : List User) (id : String) (upd : UserUpdate) :
    Except JsError (Option User × List User) :=
  if !validateUpdate env upd then
    .error (.validationError "User")
  else
    match findById users id with
    | none => .ok (none, users)
    | some u =>
      let u1 := applyUpdate env upd u
      if users.any (fun v => decide (v._id ≠ id) && decide (v.username = u1.username)) then
        .error (.duplicateKey "username")
      else if u1.email.isSome &&
          users.any (fun v => decide (v._id ≠ id) && decide (v.email = u1.email)) then
        .error (.duplicateKey "email")
      else if u1.affiliateCode.isSome &&
          users.any (fun v => decide (v._id ≠ id) && decide (v.affiliateCode = u1.affiliateCode))
          then
        .error (.duplicateKey "affiliateCode")
      else
        .ok (some u1, updateOne users id (applyUpdate env upd))

/-- The `filteredUpdates` of `UserController.updateProfile`: of the request body only the
paths `firstName`, `lastName`, `country`, `city` and `contacts` are kept. -/
def filterAllowedUpdates (updates : UserUpdate) : UserUpdate :=
  { firstName := updates.firstName, lastName := updates.lastName, country := updates.country,
    city := updates.city, contacts := updates.contacts }

/-- The handler `UserController.updateProfile`; `userId` is `req.user._id` and `updates`
is `req.body`. -/
def UserController.updateProfile (env : Env) (users : List User) (userId : String)
    (updates : UserUpdate) : Response × Option User × List User :=
  match findByIdAndUpdate env users userId (filterAllowedUpdates updates) with
  | .ok (user, users1) =>
    ({ success := true, message := some "Profile updated successfully" }, user, users1)
  | .error _ =>
    ({ status := 500, success := false, error := some "Failed to update profile" }, none, users)

/-- The handler `UserController.changePassword`; `userId` is `req.user._id`. Assigning
`user.password` marks the path modified when the value differs; `save()` then validates
it, the `pre('save')` hook hashes it and the hash is written. -/
def UserController.changePassword (env : Env) (users : List User) (userId : String)
    (currentPassword newPassword : String) : Response × List User :=
  match findById users userId with
  | none => ({ status := 500, success := false, error := some "Failed to change password" }, users)
  | some user =>
    -- Vérifier l'ancien mot de passe
    if !env.bcryptCompare currentPassword user.password then
      ({ status := 400, success := false, error := some "Current password is incorrect" }, users)
    -- Mettre à jour le mot de passe
    else if newPassword = user.password then
      ({ success := true, message := some "Password changed successfully" }, users)
    else if newPassword = "" ∨ newPassword.length < 8 then
      ({ status := 500, success := false, error := some "Failed to change password" }, users)
    else
      ({ success := true, message := some "Password changed successfully" },
        updateOne users userId fun u => { u with password := env.bcryptHash newPassword })

/-- The callback of `router.patch('/users/:id', ...)` in `routes/admin.js`; `id` is
`req.params.id`, cast to an ObjectId by `findByIdAndUpdate`, and `updates` is `req.body`,
passed on as it is. -/
def AdminRoutes.patchUserHandler (env : Env) (users : List User) (id : String)
    (updates : UserUpdate) : Response × Option User × List User :=
  match env.castObjectId id with
  | none =>
    ({ status := 500, success := false, error := some "Failed to update user" }, none, users)
  | some objectId =>
    match findByIdAndUpdate env users objectId updates with
    | .ok (none, users1) =>
      ({ status := 404, success := false, error := some "User not found" }, none, users1)
    | .ok (some user, users1) =>
      ({ success := true, message := some "User updated successfully" }, some user, users1)
    | .error _ =>
      ({ status := 500, success := false, error := some "Failed to update user" }, none, users)

/-- The route `PATCH /users/:id` of `routes/admin.js`: the router runs
`AuthMiddleware.verifyToken`, then `AuthMiddleware.checkRole(['admin'])`, then the
callback, each only when the one before has called `next()`. `authorization` is the
header of the request. -/
def AdminRoutes.patchUser (env : Env) (s : State) (authorization : Option String)
    (id : String) (updates : UserUpdate) : Response × Option User × State :=
  match AuthMiddleware.verifyToken env s authorization with
  | (.respond response, s1) => (response, none, s1)
  | (.next user _ _, s1) =>
    match AuthMiddleware.checkRole ["admin"] (some user) with
    | some response => (response, none, s1)
    | none =>
      match AdminRoutes.patchUserHandler env s1.users id updates with
      | (response, updated, users1) => (response, updated, { s1 with users := users1 })

/-- The `totalCommission` of `UserController.getAffiliateStats`:
`user.referrals.reduce((sum, ref) => sum + (ref.commissionEarned || 0), 0)`. -/
def totalCommissionEarned (u : User) : Int :=
  u.referrals.foldl (fun sum ref => jsAdd sum (ref.commissionEarned.getD 0)) 0

/-- The sum of the amounts of the `commission` entries of a user's credit history. -/
def commissionHistoryTotal (u : User) : Int :=
  ((u.creditHistory.filter fun e => decide (e.type = "commission")).map (·.amount)).sum


/-! ## Histories of the session store -/

/-- What can happen to the state between two observations: a call of one of the five
handlers of the session lifecycle, a direct call of `generateTokens`, any write to the
user collection (the ledger, profile and administration handlers write nothing else) or
to the applications, and the environment: the clock, the MongoDB TTL monitor deleting
sessions whose `expiresAt` has passed (index `expireAfterSeconds: 0`), and the loss of
cache entries. -/
inductive Event where
  | register (body : RegisterBody) (newUserId code newSessionId : String)
  | login (body : LoginBody) (newSessionId : String)
  | verifyToken (authorization : Option String)
  | refreshToken (refreshToken : Option String) (newId : String)
  | logout (session : Option Session)
  | generateTokens (user : User) (application : Option Application) (newId : String)
  | writeUsers (users : List User)
  | writeApplications (applications : List Application)
  | tick (milliseconds : Nat)
  | ttlExpire (ids : List String)
  | cacheLoss (keys : List String)
  deriving DecidableEq, Repr

/-- The state after one event. -/
def step (env : Env) (s : State) : Event → State
  | .register body newUserId code newSessionId =>
    (AuthController.register env s body newUserId code newSessionId).2.2
  | .login body newSessionId => (AuthController.login env s body newSessionId).2.2
  | .verifyToken authorization => (AuthMiddleware.verifyToken env s authorization).2
  | .refreshToken refreshToken newId => (AuthController.refreshToken env s refreshToken newId).2.2
  | .logout session => (AuthController.logout s session).2
  | .generateTokens user application newId =>
    match AuthController.generateTokens env s user application newId with
    | .ok (_, s1) => s1
    | .error _ => s
  | .writeUsers users => { s with users := users }
  | .writeApplications applications => { s with applications := applications }
  | .tick milliseconds => { s with now := s.now + milliseconds }
  | .ttlExpire ids =>
    { s with
      sessions := s.sessions.filter fun x =>
        !(decide (x.expiresAt ≤ (s.now : Int)) && decide (x._id ∈ ids)) }
  | .cacheLoss keys => { s with redis := s.redis.filter fun e => !decide (e.key ∈ keys) }

/-- The state after a finite sequence of events. -/
def run (env : Env) (s : State) (events : List Event) : State :=
  events.foldl (step env) s

/-- Every stored session selected by `sel` is revoked. -/
def Marked (sel : Session → Bool) (sessions : List Session) : Prop :=
  ∀ x ∈ sessions, sel x = true → x.isRevoked = true

/-- The Redis server holds a live marker for the token: the command `GET` on its key
returns a non-empty string (the handlers pass the string `true` to `redis.setex`). -/
def RevocationCacheHolds (s : State) (token : String) : Prop :=
  ∃ value, redisGet s.redis s.now (revokedKey token) = some value ∧ value ≠ ""

/-- A selector that reads only the fields of a session that no handler writes: `_id` and
the two tokens. -/
def TokenSelector (sel : Session → Bool) : Prop :=
  ∀ x y : Session, x._id = y._id → x.accessToken = y.accessToken →
    x.refreshToken = y.refreshToken → sel x = sel y

/-- An environment in which `R1` is a refresh token of user A valid for seven days and
`A1` an access token of user A valid for fifteen minutes, both issued at instant 0;
the hash of a password is the password behind a tag, and an email matches when it
holds an `@`. A string is cast to an ObjectId when it consists of 24 hexadecimal digits,
the host runs on UTC, and the two case mappings act on the ASCII letters. -/
def demoEnv : Env :=
  { JWT_SECRET := "k1", JWT_REFRESH_SECRET := "k2", ACCESS_TOKEN_EXPIRY := "15m",
    REFRESH_TOKEN_EXPIRY := "7d",
    jwtSign := fun payload secret _ now =>
      .ok (secret ++ "." ++ payload.userId.getD "" ++ "." ++ toString (now / 1000)),
    jwtVerify := fun token secret now =>
      if token = "R1" ∧ secret = "k2" then
        if now < 604800000 then
          .ok { userId := some "aaaaaaaaaaaaaaaaaaaaaaaa", tokenType := some "refresh" }
        else .error .tokenExpiredError
      else if token = "A1" ∧ secret = "k1" then
        if now < 900000 then
          .ok { userId := some "aaaaaaaaaaaaaaaaaaaaaaaa", username := some "alice",
                userType := some "user" }
        else .error .tokenExpiredError
      else .error .jsonWebTokenError,
    bcryptHash := fun password => "bcrypt:" ++ password,
    bcryptCompare := fun candidate hash => decide (hash = "bcrypt:" ++ candidate),
    emailMatch := fun email => email.toList.contains '@',
    castObjectId := fun s =>
      if s.length = 24 ∧ s.toList.all (fun c => (digitValue c).isSome) then
        some (String.mk (s.toList.map Char.toLower))
      else none,
    localTime := fun t => t,
    utc := fun t => t,
    toUpperCase := fun s => String.mk (s.toList.map Char.toUpper),
    toLowerCase := fun s => String.mk (s.toList.map Char.toLower) }

/-- The session of user A holding the tokens `A1` and `R1`. -/
def demoSession : Session :=
  { _id := "s1", userId := "aaaaaaaaaaaaaaaaaaaaaaaa", accessToken := "A1",
    refreshToken := "R1",
    expiresAt := 900000, lastActivity := 0, createdAt := 0 }

/-- One second after the session was created; the cache is empty. -/
def demoState : State :=
  { users := [alice, bob], sessions := [demoSession], redis := [], now := 1000 }


/-! ## Registration and ledger histories -/

/-- A registration or a ledger operation. -/
inductive RegLedgerOp where
  | register (body : RegisterBody) (newUserId code newSessionId : String)
  | ledger (op : LedgerOp)
  deriving DecidableEq, Repr

/-- The state after one registration or ledger operation. -/
def RegLedgerOp.apply (env : Env) (s : State) : RegLedgerOp → State
  | .register body newUserId code newSessionId =>
    (AuthController.register env s body newUserId code newSessionId).2.2
  | .ledger op => { s with users := op.apply env s.users }

/-- The state after a finite sequence of registrations and ledger operations. -/
def runRegLedger (env : Env) (s : State) (ops : List RegLedgerOp) : State :=
  ops.foldl (RegLedgerOp.apply env) s

/-- No stored referral edge carries a `commissionEarned` value. -/
def NoCommissionEarned (users : List User) : Prop :=
  ∀ u ∈ users, ∀ r ∈ u.referrals, r.commissionEarned = none

instance (users : List User) : Decidable (NoCommissionEarned users) := by
  unfold NoCommissionEarned; infer_instance

/-- Every user of `users` is still stored in `users1` with the same credit and the same
credit history. -/
def LedgerFrame (users users1 : List User) : Prop :=
  ∀ id u, findById users id = some u →
    ∃ u1, findById users1 id = some u1 ∧ u1.credit = u.credit ∧
      u1.creditHistory = u.creditHistory

/-- User R of the scenarios: an affiliate whose code is `RITK3V9QX2M`, with the password
`correct horse`. -/
def rita : User :=
  { _id := "cccccccccccccccccccccccc", username := "rita", email := some "rita@example.org",
    password := "bcrypt:correct horse", userType := "affiliate",
    affiliateCode := some "RITK3V9QX2M" }

/-- A store holding R alone, with no session. -/
def ritaState : State := { users := [rita], sessions := [], redis := [], now := 5000 }

/-- A registration naming R's affiliate code. -/
def newcomer : RegisterBody :=
  { username := "newcomer", email := "New@Example.org", password := "s3cret-pass",
    affiliateCode := some "RITK3V9QX2M" }

/-! ## States of the scenarios -/

/-- The store of `demoState` with a live entry `token:revoked:A1` on the Redis server. -/
def revokedCacheState : State :=
  { demoState with
    redis := [{ key := "token:revoked:A1", value := "true", expireAt := 3601000 }] }



/-! ## Lemmas on Numbers -/

theorem numberSpacing_lt (m : Nat) : ∀ (fuel p : Nat), m < 2 ^ 53 * p * 2 ^ fuel →
    m < 2 ^ 53 * numberSpacing m fuel p := by
  intro fuel
  induction fuel with
  | zero => intro p h; simpa [numberSpacing] using h
  | succ n ih =>
    intro p h
    unfold numberSpacing
    split
    · assumption
    · apply ih
      calc m < 2 ^ 53 * p * 2 ^ (n + 1) := h
        _ = 2 ^ 53 * (2 * p) * 2 ^ n := by ring

theorem numberSpacing_least (m : Nat) : ∀ (fuel p : Nat),
    numberSpacing m fuel p = p ∨ 2 ^ 53 * (numberSpacing m fuel p / 2) ≤ m := by
  intro fuel
  induction fuel with
  | zero => intro p; exact Or.inl rfl
  | succ n ih =>
    intro p
    unfold numberSpacing
    split
    · exact Or.inl rfl
    · rename_i hge
      rcases ih (2 * p) with h | h
      · right
        rw [h]
        have : 2 * p / 2 = p := by omega
        rw [this]
        exact not_lt.1 hge
      · exact Or.inr h

theorem numberSpacing_pos (m : Nat) : ∀ (fuel p : Nat), 0 < p → 0 < numberSpacing m fuel p := by
  intro fuel
  induction fuel with
  | zero => intro p h; exact h
  | succ n ih =>
    intro p h
    unfold numberSpacing
    split
    · exact h
    · exact ih _ (by omega)

/-- The search for the spacing ends within its bound: the spacing found at the magnitude `m`
is the least power of two `p` with `m < 2 ^ 53 * p`. -/
theorem numberSpacing_spec (m : Nat) :
    0 < numberSpacing m m 1 ∧ m < 2 ^ 53 * numberSpacing m m 1 ∧
    (numberSpacing m m 1 = 1 ∨ 2 ^ 53 * (numberSpacing m m 1 / 2) ≤ m) := by
  refine ⟨numberSpacing_pos m m 1 (by decide), numberSpacing_lt m m 1 ?_, numberSpacing_least m m 1⟩
  have h1 : m < 2 ^ m := Nat.lt_two_pow m
  have h2 : 0 < 2 ^ 53 := by decide
  calc m < 2 ^ m := h1
    _ ≤ 2 ^ 53 * 1 * 2 ^ m := by
      rw [Nat.mul_one]
      exact Nat.le_mul_of_pos_left _ h2

/-- The value of `roundNumber n` is a multiple of the spacing at the magnitude of `n`, with a
significand of at most `2 ^ 53`, and lies within half a spacing of `n`. -/
theorem roundNumber_near (n : Int) :
    ∃ q : Nat, q ≤ 2 ^ 53 ∧
      (roundNumber n).natAbs = q * numberSpacing n.natAbs n.natAbs 1 ∧
      2 * (roundNumber n - n).natAbs ≤ numberSpacing n.natAbs n.natAbs 1 := by
  obtain ⟨hp, hlt, -⟩ := numberSpacing_spec n.natAbs
  have hn : n = (n.natAbs : Int) ∨ n = -(n.natAbs : Int) := Int.natAbs_eq n
  unfold roundNumber
  simp only
  generalize numberSpacing n.natAbs n.natAbs 1 = p at hp hlt ⊢
  generalize n.natAbs = m at hlt hn ⊢
  have hq : m / p < 2 ^ 53 := by
    rw [Nat.div_lt_iff_lt_mul hp]
    exact hlt
  have hdm : m / p * p + m % p = m := by
    rw [Nat.mul_comm]; exact Nat.div_add_mod m p
  have hr := Nat.mod_lt m hp
  have e : (m / p + 1) * p = m / p * p + p := by ring
  generalize m / p = q at hq hdm e ⊢
  generalize m % p = r at hdm hr ⊢
  by_cases hc : p < 2 * r ∨ (p = 2 * r ∧ q % 2 = 1)
  · rw [if_pos hc]
    refine ⟨q + 1, by omega, ?_, ?_⟩
    · split
      · rw [Int.natAbs_neg]; exact Int.natAbs_ofNat _
      · exact Int.natAbs_ofNat _
    · rw [e]
      generalize q * p = a at hdm ⊢
      split <;> omega
  · rw [if_neg hc]
    refine ⟨q, by omega, ?_, ?_⟩
    · split
      · rw [Int.natAbs_neg]; exact Int.natAbs_ofNat _
      · exact Int.natAbs_ofNat _
    · generalize q * p = a at hdm ⊢
      split <;> omega

theorem roundNumber_nonneg (n : Int) (h : 0 ≤ n) : 0 ≤ roundNumber n := by
  unfold roundNumber
  simp only
  rw [if_neg (by omega)]
  exact Int.ofNat_nonneg _

/-- Every integer of magnitude at most `2 ^ 53` is a Number. -/
theorem roundNumber_of_natAbs_le (n : Int) (h : n.natAbs ≤ 2 ^ 53) : roundNumber n = n := by
  rcases Nat.lt_or_ge n.natAbs (2 ^ 53) with hlt | hge
  · unfold roundNumber
    have hp : numberSpacing n.natAbs n.natAbs 1 = 1 := by
      cases hm : n.natAbs with
      | zero => rfl
      | succ k =>
        rw [hm] at hlt
        simp only [numberSpacing, Nat.mul_one, hlt, if_true]
    simp only [hp, Nat.div_one, Nat.mod_one, Nat.mul_one]
    have h0 : ¬ (1 < 2 * 0 ∨ 1 = 2 * 0 ∧ n.natAbs % 2 = 1) := by omega
    rw [if_neg h0]
    split <;> omega
  · have he : n.natAbs = 2 ^ 53 := Nat.le_antisymm h hge
    rcases Int.natAbs_eq n with hn | hn
    · rw [hn, he]; decide
    · rw [hn, he]; decide

theorem jsSub_nonneg (a b : Int) (h : b ≤ a) : 0 ≤ jsSub a b :=
  roundNumber_nonneg _ (by omega)

theorem jsAdd_nonneg (a b : Int) (ha : 0 ≤ a) (hb : 0 ≤ b) : 0 ≤ jsAdd a b :=
  roundNumber_nonneg _ (by omega)

/-! ## Lemmas on the collection primitives -/

/-- What a successful `User.findById` of a request string has found. -/
theorem user_findById_ok (env : Env) (users : List User) (id : String) (found : Option User)
    (h : User.findById env users id = .ok found) :
    ∃ objectId, env.castObjectId id = some objectId ∧ findById users objectId = found := by
  unfold User.findById at h
  split at h
  · cases h
  · rename_i objectId hc
    injection h with h
    exact ⟨objectId, hc, h⟩

theorem user_findById_eq (env : Env) (users : List User) (id objectId : String)
    (h : env.castObjectId id = some objectId) :
    User.findById env users id = .ok (findById users objectId) := by
  unfold User.findById
  rw [h]

theorem findById_updateOne (users : List User) (id id' : String) (f : User → User)
    (hf : ∀ u, (f u)._id = u._id) :
    findById (updateOne users id f) id' =
      if id' = id then (findById users id).map f else findById users id' := by
  induction users with
  | nil => simp [findById, updateOne]
  | cons u rest ih =>
    unfold findById at ih ⊢
    by_cases hu : u._id = id
    · by_cases hid : id' = id
      · subst hid
        simp [updateOne, hu, hf, List.find?_cons]
      · have hne : ¬ id = id' := fun h => hid h.symm
        simp [updateOne, hu, hf, hid, hne, List.find?_cons]
    · by_cases hid : id' = id
      · subst hid
        simp [updateOne, hu, List.find?_cons, ih]
      · by_cases hu' : u._id = id'
        · simp [updateOne, hu, hid, hu', List.find?_cons]
        · simp [updateOne, hu, hid, hu', List.find?_cons, ih]

theorem findById_id (users : List User) (id : String) (u : User)
    (h : findById users id = some u) : u._id = id := by
  unfold findById at h
  have := List.find?_some h
  simpa using this

theorem mem_updateOne (users : List User) (id : String) (f : User → User) (v : User)
    (hv : v ∈ updateOne users id f) : v ∈ users ∨ ∃ u ∈ users, v = f u := by
  induction users with
  | nil => simp [updateOne] at hv
  | cons u rest ih =>
    unfold updateOne at hv
    split at hv
    · rcases List.mem_cons.1 hv with h | h
      · exact Or.inr ⟨u, List.mem_cons_self _ _, h⟩
      · exact Or.inl (List.mem_cons_of_mem _ h)
    · rcases List.mem_cons.1 hv with h | h
      · exact Or.inl (h ▸ List.mem_cons_self _ _)
      · rcases ih h with h1 | ⟨w, hw, hw2⟩
        · exact Or.inl (List.mem_cons_of_mem _ h1)
        · exact Or.inr ⟨w, List.mem_cons_of_mem _ hw, hw2⟩

@[simp] theorem savedDoc_id (l : User) (n : Int) (e : CreditEntry) (u : User) :
    (savedDoc l n e u)._id = u._id := rfl

@[simp] theorem savedDoc_history (l : User) (n : Int) (e : CreditEntry) (u : User) :
    (savedDoc l n e u).creditHistory = u.creditHistory ++ [e] := rfl

theorem savedDoc_credit_self (u : User) (n : Int) (e : CreditEntry) :
    (savedDoc u n e u).credit = n := by
  unfold savedDoc
  by_cases h : n = u.credit <;> simp [h]

theorem saveCreditPush_ok (users users1 : List User) (l : User) (n : Int) (e : CreditEntry)
    (h : saveCreditPush users l n e = .ok users1) :
    users1 = updateOne users l._id (savedDoc l n e) ∧ (n ≠ l.credit → 0 ≤ n) ∧
      e.type ∈ creditTypes ∧ (findById users l._id).isSome = true := by
  unfold saveCreditPush at h
  split at h
  · cases h
  · split at h
    · cases h
    · split at h
      · cases h
      · rename_i h1 h2 h3
        refine ⟨?_, ?_, ?_, ?_⟩
        · injection h with h; exact h.symm
        · intro hne
          by_contra hlt
          exact h1 ⟨hne, lt_of_not_ge hlt⟩
        · exact not_not.1 h2
        · cases hf : findById users l._id with
          | none => simp [hf] at h3
          | some _ => rfl

theorem saveCreditPush_eq_ok (users : List User) (l : User) (n : Int) (e : CreditEntry)
    (h1 : n ≠ l.credit → 0 ≤ n) (h2 : e.type ∈ creditTypes)
    (h3 : (findById users l._id).isSome = true) :
    saveCreditPush users l n e = .ok (updateOne users l._id (savedDoc l n e)) := by
  unfold saveCreditPush
  have a : ¬ (n ≠ l.credit ∧ n < 0) := fun ⟨x, y⟩ => absurd (h1 x) (not_le.2 y)
  have c : ¬ (findById users l._id).isNone = true := by
    cases hf : findById users l._id with
    | none => simp [hf] at h3
    | some _ => simp
  rw [if_neg a, if_neg (not_not.2 h2), if_neg c]

/-- What a returning `try` body of `transferCredit` has done. -/
theorem transferCreditTry_ok (env : Env) (users : List User) (self : User) (toUserId : String)
    (amount : Int) (description ref1 ref2 : String) (now : Nat) (result : TransferResult)
    (tx2 : List User)
    (h : transferCreditTry env users self toUserId amount description ref1 ref2 now
      = .ok (result, tx2)) :
    amount ≤ self.credit ∧
    (findById users self._id).isSome = true ∧
    ∃ rid recipient,
      env.castObjectId toUserId = some rid ∧
      findById (updateOne users self._id
        (savedDoc self (jsSub self.credit amount)
          (sentEntry toUserId amount description ref1 now)))
        rid = some recipient ∧
      (jsAdd recipient.credit amount ≠ recipient.credit → 0 ≤ jsAdd recipient.credit amount) ∧
      tx2 = updateOne (updateOne users self._id
        (savedDoc self (jsSub self.credit amount)
          (sentEntry toUserId amount description ref1 now)))
        recipient._id
        (savedDoc recipient (jsAdd recipient.credit amount)
          (receivedEntry self._id amount description ref2 now)) ∧
      result = { success := true, transactionId := ref1,
                 newBalance := jsSub self.credit amount } := by
  unfold transferCreditTry at h
  split at h
  · cases h
  · rename_i hge
    simp only [] at h
    split at h
    · cases h
    · rename_i tx1 hs1
      obtain ⟨e1, -, -, e4⟩ := saveCreditPush_ok _ _ _ _ _ hs1
      subst e1
      split at h
      · cases h
      · cases h
      · rename_i recipient hrec
        obtain ⟨rid, hcast, hfind⟩ := user_findById_ok _ _ _ _ hrec
        split at h
        · cases h
        · rename_i tx2' hs2
          obtain ⟨f1, f2, -, -⟩ := saveCreditPush_ok _ _ _ _ _ hs2
          refine ⟨not_lt.1 hge, e4, rid, recipient, hcast, hfind, f2, ?_, ?_⟩
          · injection h with h
            injection h with _ h2
            rw [← h2, f1]
          · injection h with h
            injection h with h1 _
            rw [← h1]
            simp [sentEntry]

theorem findById_saved (users : List User) (id id' : String) (l : User) (n : Int)
    (e : CreditEntry) :
    findById (updateOne users id (savedDoc l n e)) id' =
      if id' = id then (findById users id).map (savedDoc l n e) else findById users id' :=
  findById_updateOne users id id' (savedDoc l n e) (fun _ => rfl)

theorem transferCredit_ok (env : Env) (users : List User) (self : User) (toUserId : String)
    (amount : Int) (description ref1 ref2 : String) (now : Nat) (result : TransferResult)
    (users1 : List User)
    (h : transferCredit env users self toUserId amount description ref1 ref2 now
      = (.ok result, users1)) :
    transferCreditTry env users self toUserId amount description ref1 ref2 now
      = .ok (result, users1) := by
  unfold transferCredit at h
  split at h
  · rename_i r c hr
    injection h with h1 h2
    injection h1 with h1
    rw [hr, h1, h2]
  · injection h with h1 _
    cases h1

/-- A transfer from a freshly loaded sender to a distinct existing recipient returns when
the amount is covered and not negative and the recipient's credit is not negative. -/
theorem transferCredit_succeeds (env : Env) (users : List User) (sender recipient : User)
    (b rid : String) (amt : Int) (description ref1 ref2 : String) (now : Nat)
    (hsender : findById users sender._id = some sender)
    (hcast : env.castObjectId b = some rid)
    (hrecipient : findById users rid = some recipient)
    (hne : rid ≠ sender._id) (hle : amt ≤ sender.credit) (hpos : 0 ≤ amt)
    (hrc : 0 ≤ recipient.credit) :
    transferCredit env users sender b amt description ref1 ref2 now
      = (.ok { success := true, transactionId := ref1, newBalance := jsSub sender.credit amt },
          updateOne (updateOne users sender._id
            (savedDoc sender (jsSub sender.credit amt) (sentEntry b amt description ref1 now)))
            recipient._id (savedDoc recipient (jsAdd recipient.credit amt)
              (receivedEntry sender._id amt description ref2 now))) := by
  have s1 : saveCreditPush users sender (jsSub sender.credit amt)
      (sentEntry b amt description ref1 now)
      = .ok (updateOne users sender._id
          (savedDoc sender (jsSub sender.credit amt) (sentEntry b amt description ref1 now))) := by
    apply saveCreditPush_eq_ok
    · intro _; exact jsSub_nonneg _ _ hle
    · simp [sentEntry, creditTypes]
    · simp [hsender]
  have f1 : findById (updateOne users sender._id
      (savedDoc sender (jsSub sender.credit amt) (sentEntry b amt description ref1 now))) rid
      = some recipient := by
    rw [findById_saved, if_neg hne, hrecipient]
  have f2 : User.findById env (updateOne users sender._id
      (savedDoc sender (jsSub sender.credit amt) (sentEntry b amt description ref1 now))) b
      = .ok (some recipient) := by
    rw [user_findById_eq _ _ _ _ hcast, f1]
  have s2 : saveCreditPush (updateOne users sender._id
      (savedDoc sender (jsSub sender.credit amt) (sentEntry b amt description ref1 now)))
      recipient (jsAdd recipient.credit amt) (receivedEntry sender._id amt description ref2 now)
      = .ok (updateOne (updateOne users sender._id
          (savedDoc sender (jsSub sender.credit amt) (sentEntry b amt description ref1 now)))
          recipient._id (savedDoc recipient (jsAdd recipient.credit amt)
            (receivedEntry sender._id amt description ref2 now))) := by
    apply saveCreditPush_eq_ok
    · intro _; exact jsAdd_nonneg _ _ hrc hpos
    · simp [receivedEntry, creditTypes]
    · rw [findById_id _ _ _ hrecipient, f1]; rfl
  unfold transferCredit transferCreditTry
  rw [if_neg (not_lt.2 hle)]
  simp only [s1, f2, s2]
  simp [sentEntry]

/-- The stored documents of the two parties after a returning transfer, the sender being
freshly loaded: between distinct users each party's document received one `save()`; in a
transfer to oneself the single document received both. -/
theorem transferCredit_effect (env : Env) (users : List User) (sender recipient : User)
    (b rid : String) (amt : Int) (description ref1 ref2 : String) (now : Nat)
    (result : TransferResult) (users1 : List User)
    (hsender : findById users sender._id = some sender)
    (hcast : env.castObjectId b = some rid)
    (hrecipient : findById users rid = some recipient)
    (hok : transferCredit env users sender b amt description ref1 ref2 now
      = (.ok result, users1)) :
    result = { success := true, transactionId := ref1,
               newBalance := jsSub sender.credit amt } ∧
    (rid ≠ sender._id →
      findById users1 sender._id = some (savedDoc sender (jsSub sender.credit amt)
        (sentEntry b amt description ref1 now) sender) ∧
      findById users1 rid = some (savedDoc recipient (jsAdd recipient.credit amt)
        (receivedEntry sender._id amt description ref2 now) recipient)) ∧
    (rid = sender._id →
      findById users1 rid = some
        (savedDoc
          (savedDoc sender (jsSub sender.credit amt) (sentEntry b amt description ref1 now)
            sender)
          (jsAdd (jsSub sender.credit amt) amt)
          (receivedEntry sender._id amt description ref2 now)
          (savedDoc sender (jsSub sender.credit amt)
            (sentEntry b amt description ref1 now) sender))) := by
  obtain ⟨-, -, rid', r, hcast', hr, -, htx, hres⟩ :=
    transferCreditTry_ok _ _ _ _ _ _ _ _ _ _ _ (transferCredit_ok _ _ _ _ _ _ _ _ _ _ _ hok)
  rw [hcast] at hcast'
  injection hcast' with hcast'
  subst hcast'
  have hrid : r._id = rid := findById_id _ _ _ hr
  refine ⟨hres, ?_, ?_⟩
  · intro hne
    rw [findById_saved, if_neg hne, hrecipient] at hr
    injection hr with hr
    subst hr
    have hab : ¬ sender._id = rid := fun h => hne h.symm
    constructor
    · rw [htx, hrid, findById_saved, if_neg hab, findById_saved, if_pos rfl, hsender]
      rfl
    · rw [htx, hrid, findById_saved, if_pos rfl, findById_saved, if_neg hne, hrecipient]
      rfl
  · intro heq
    subst heq
    rw [findById_saved, if_pos rfl, hsender] at hr
    simp only [Option.map_some'] at hr
    injection hr with hr
    subst hr
    rw [htx]
    simp only [savedDoc_id]
    rw [findById_saved, if_pos rfl, findById_saved, if_pos rfl, hsender]
    simp only [Option.map_some', savedDoc_credit_self]

/-! ### C1: what a transfer moves -/

/-- C1 fails as stated. The sender holds 3, the recipient 2 ^ 53 = 9007199254740992, and 1
is transferred. The call returns; the sender's stored credit is 2, and the recipient's is
still 2 ^ 53, not 2 ^ 53 + 1, which is no Number (the sum is rounded to the even neighbour).
The sum of the two credits has changed, whether it is taken exactly or as JavaScript adds
the two Numbers. -/
theorem transferCredit_recipient_rounded :
    (transferCredit demoEnv
        [{ alice with credit := 3 }, { bob with credit := 9007199254740992 }]
        { alice with credit := 3 } bob._id 1 "gift" "r1" "r2" 7).1
      = .ok { success := true, transactionId := "r1", newBalance := 2 } ∧
    creditOf (transferCredit demoEnv
        [{ alice with credit := 3 }, { bob with credit := 9007199254740992 }]
        { alice with credit := 3 } bob._id 1 "gift" "r1" "r2" 7).2 alice._id = some 2 ∧
    creditOf (transferCredit demoEnv
        [{ alice with credit := 3 }, { bob with credit := 9007199254740992 }]
        { alice with credit := 3 } bob._id 1 "gift" "r1" "r2" 7).2 bob._id
      = some 9007199254740992 ∧
    (9007199254740992 : Int) ≠ 9007199254740992 + 1 ∧
    (2 : Int) + 9007199254740992 ≠ 3 + 9007199254740992 ∧
    jsAdd 2 9007199254740992 ≠ jsAdd 3 9007199254740992 :=
  ⟨rfl, by decide, by decide, by decide, by decide, by decide⟩

/-- The same loss on fractions, counted in the unit `2 ^ (-55)`: the sender holds 0.3
(10808639105689190 units), the recipient 0.7 (25220157913274776 units), and 0.1
(3602879701896397 units) is transferred. The sender is left with 0.19999999999999998 and
the recipient with 0.7999999999999999, and the JavaScript sum of the two credits goes from
1 (`2 ^ 55` units) to 0.9999999999999999. -/
theorem transferCredit_fractions_drift :
    creditOf (transferCredit demoEnv
        [{ alice with credit := 10808639105689190 }, { bob with credit := 25220157913274776 }]
        { alice with credit := 10808639105689190 } bob._id 3602879701896397 "gift" "r1" "r2" 7).2
        alice._id = some 7205759403792793 ∧
    creditOf (transferCredit demoEnv
        [{ alice with credit := 10808639105689190 }, { bob with credit := 25220157913274776 }]
        { alice with credit := 10808639105689190 } bob._id 3602879701896397 "gift" "r1" "r2" 7).2
        bob._id = some 28823037615171172 ∧
    jsAdd 10808639105689190 25220157913274776 = 2 ^ 55 ∧
    jsAdd 7205759403792793 28823037615171172 = 2 ^ 55 - 4 :=
  ⟨by decide, by decide, by decide, by decide⟩

/-- C1 (amended). For a sender `a` (the freshly loaded document `sender`), an existing
recipient `b ≠ a` and an amount with `0 < amt ≤ credit(a)`, a successful
`User.transferCredit(b, amt)` leaves the stored credit of `a` equal to the Number nearest
to its old value minus `amt` and that of `b` equal to the Number nearest to its old value
plus `amt`, and reports the former as `newBalance`. When the difference and the sum have
magnitude at most `2 ^ 53` (in the unit the credits are counted in), both are exact and
the sum of the two credits is unchanged. -/
theorem transferCredit_moves_credit (env : Env) (users : List User) (sender recipient : User)
    (b rid : String) (amt : Int) (description ref1 ref2 : String) (now : Nat)
    (result : TransferResult) (users1 : List User)
    (hsender : findById users sender._id = some sender)
    (hcast : env.castObjectId b = some rid)
    (hrecipient : findById users rid = some recipient)
    (hne : rid ≠ sender._id) (hpos : 0 < amt) (hle : amt ≤ sender.credit)
    (hok : transferCredit env users sender b amt description ref1 ref2 now
      = (.ok result, users1)) :
    creditOf users1 sender._id = some (roundNumber (sender.credit - amt)) ∧
    creditOf users1 rid = some (roundNumber (recipient.credit + amt)) ∧
    result.newBalance = roundNumber (sender.credit - amt) ∧
    ((sender.credit - amt).natAbs ≤ 2 ^ 53 → (recipient.credit + amt).natAbs ≤ 2 ^ 53 →
      creditOf users1 sender._id = some (sender.credit - amt) ∧
      creditOf users1 rid = some (recipient.credit + amt) ∧
      ∀ ca cb, creditOf users1 sender._id = some ca → creditOf users1 rid = some cb →
        ca + cb = sender.credit + recipient.credit) := by
  obtain ⟨hres, hdist, -⟩ :=
    transferCredit_effect _ _ _ _ _ _ _ _ _ _ _ _ _ hsender hcast hrecipient hok
  obtain ⟨h1, h2⟩ := hdist hne
  have ha : creditOf users1 sender._id = some (roundNumber (sender.credit - amt)) := by
    unfold creditOf
    rw [h1]
    simp [savedDoc_credit_self, jsSub]
  have hb : creditOf users1 rid = some (roundNumber (recipient.credit + amt)) := by
    unfold creditOf
    rw [h2]
    simp [savedDoc_credit_self, jsAdd]
  refine ⟨ha, hb, by rw [hres]; rfl, ?_⟩
  intro hx hy
  rw [roundNumber_of_natAbs_le _ hx] at ha
  rw [roundNumber_of_natAbs_le _ hy] at hb
  refine ⟨ha, hb, ?_⟩
  intro ca cb e1 e2
  rw [ha] at e1
  rw [hb] at e2
  injection e1 with e1
  injection e2 with e2
  omega

/-- The scenario of the specification: A with 100 transfers 40 to B with 10; A = 60, B = 50. -/
theorem transferCredit_moves_credit_witness :
    creditOf (transferCredit demoEnv [alice, bob] alice bob._id 40 "gift" "r1" "r2" 7).2
      alice._id = some 60 ∧
    creditOf (transferCredit demoEnv [alice, bob] alice bob._id 40 "gift" "r1" "r2" 7).2
      bob._id = some 50 := by
  have h := (transferCredit_moves_credit demoEnv [alice, bob] alice bob bob._id bob._id 40
    "gift" "r1" "r2" 7 { success := true, transactionId := "r1", newBalance := 60 }
    (transferCredit demoEnv [alice, bob] alice bob._id 40 "gift" "r1" "r2" 7).2
    (by decide) (by decide) (by decide) (by decide) (by decide) (by decide) rfl).2.2.2
    (by decide) (by decide)
  exact ⟨h.1, h.2.1⟩

/-- The balance check is the first statement of the `try` block: an uncovered amount
throws 'Insufficient credit' and the transaction is aborted. -/
theorem transferCredit_uncovered (env : Env) (users : List User) (self : User)
    (toUserId : String) (amount : Int) (description ref1 ref2 : String) (now : Nat)
    (h : self.credit < amount) :
    transferCredit env users self toUserId amount description ref1 ref2 now
      = (.error (.error "Insufficient credit"), users) := by
  unfold transferCredit transferCreditTry
  rw [if_pos h]

/-- C2. When the sender's credit is strictly less than the amount, `User.transferCredit`
throws `Error('Insufficient credit')` and the collection (hence the credit and the credit
history of the sender and of the recipient) is exactly what it was; a request that reaches
the method through `UserController.transferCredit` is answered
400 'Insufficient credit balance'. -/
theorem transferCredit_insufficient (env : Env) (users : List User) (self : User)
    (toUserId : String) (amount : Int) (description ref1 ref2 : String) (now : Nat)
    (h : self.credit < amount) :
    transferCredit env users self toUserId amount description ref1 ref2 now
      = (.error (.error "Insufficient credit"), users) ∧
    (∀ userId body, findById users userId = some self → body.toUserId = some toUserId →
      toUserId ≠ "" → body.amount = some amount → 0 < amount →
      UserController.transferCredit env users userId body ref1 ref2 now
        = ({ status := 400, success := false, error := some "Insufficient credit balance" },
            none, users)) := by
  have hm : ∀ d, transferCredit env users self toUserId amount d ref1 ref2 now
      = (.error (.error "Insufficient credit"), users) :=
    fun d => transferCredit_uncovered env users self toUserId amount d ref1 ref2 now h
  refine ⟨hm _, ?_⟩
  intro userId body hu hto hne ham hpos
  have h0 : amount ≠ 0 := ne_of_gt hpos
  unfold UserController.transferCredit
  simp [hto, ham, falsyString, falsyNumber, hne, h0, not_le.2 hpos, hu, hm, JsError.message]

/-- The sender holds 10 and asks to move 40: rejected, nothing changes. -/
theorem transferCredit_insufficient_witness :
    transferCredit demoEnv [bob, alice] bob alice._id 40 "" "r1" "r2" 0
      = (.error (.error "Insufficient credit"), [bob, alice]) :=
  (transferCredit_insufficient demoEnv [bob, alice] bob alice._id 40 "" "r1" "r2" 0
    (by decide)).1

/-! ### C3: the credit invariant -/

theorem saveCreditPush_nonneg (users users1 : List User) (l : User) (n : Int) (e : CreditEntry)
    (hinv : CreditsNonneg users) (h : saveCreditPush users l n e = .ok users1) :
    CreditsNonneg users1 := by
  obtain ⟨rfl, hv, -, -⟩ := saveCreditPush_ok _ _ _ _ _ h
  intro v hvmem
  rcases mem_updateOne _ _ _ _ hvmem with h1 | ⟨u, hu, rfl⟩
  · exact hinv v h1
  · unfold savedDoc
    by_cases hn : n = l.credit
    · simpa [hn] using hinv u hu
    · simpa [hn] using hv hn

theorem addCredit_nonneg (users : List User) (self : User) (amount : Int)
    (type description : String) (metadata : Option String) (ref : String) (now : Nat)
    (hinv : CreditsNonneg users) :
    CreditsNonneg (addCredit users self amount type description metadata ref now).2 := by
  unfold addCredit
  simp only []
  split
  · rename_i users1 hs
    exact saveCreditPush_nonneg _ _ _ _ _ hinv hs
  · exact hinv

theorem transferCredit_nonneg (env : Env) (users : List User) (self : User)
    (toUserId : String) (amount : Int) (description ref1 ref2 : String) (now : Nat)
    (hinv : CreditsNonneg users) :
    CreditsNonneg (transferCredit env users self toUserId amount description ref1 ref2 now).2
      := by
  unfold transferCredit
  split
  · rename_i result committed hr
    simp only []
    unfold transferCreditTry at hr
    split at hr
    · cases hr
    · simp only [] at hr
      split at hr
      · cases hr
      · rename_i tx1 hs1
        have i1 := saveCreditPush_nonneg _ _ _ _ _ hinv hs1
        split at hr
        · cases hr
        · cases hr
        · split at hr
          · cases hr
          · rename_i tx2 hs2
            have i2 := saveCreditPush_nonneg _ _ _ _ _ i1 hs2
            injection hr with hr
            injection hr with _ hr
            rw [← hr]
            exact i2
  · exact hinv

/-- C3. Starting from a collection in which every user's credit is `≥ 0`, after every
finite sequence of ledger operations (`User.addCredit` with any amount and kind,
`User.transferCredit` with any recipient and amount, each on any in-memory document) every
stored credit is still `≥ 0`. -/
theorem credit_nonneg_invariant (env : Env) (users : List User) (ops : List LedgerOp)
    (h : CreditsNonneg users) : CreditsNonneg (runLedger env users ops) := by
  unfold runLedger
  induction ops generalizing users with
  | nil => exact h
  | cons op rest ih =>
    rw [List.foldl_cons]
    apply ih
    cases op with
    | addCredit self amount type description metadata ref now =>
      exact addCredit_nonneg _ _ _ _ _ _ _ _ h
    | transferCredit self toUserId amount description ref1 ref2 now =>
      exact transferCredit_nonneg _ _ _ _ _ _ _ _ _ h

/-- A withdrawal posting larger than the balance, an overdrawing transfer and a covered
transfer, in sequence: no stored credit becomes negative. -/
theorem credit_nonneg_invariant_witness :
    CreditsNonneg [alice, bob] ∧
    CreditsNonneg (runLedger demoEnv [alice, bob]
      [.addCredit alice (-500) "withdrawal" "cash out" none "r0" 1,
       .transferCredit bob alice._id 40 "" "r1" "r2" 2,
       .transferCredit alice bob._id 100 "" "r3" "r4" 3]) :=
  ⟨by decide, credit_nonneg_invariant _ _ _ (by decide)⟩

/-! ### C4: the reference ids of the two entries -/

/-- C4 fails as stated: in the transfer of 40 from A to B, drawn reference ids `r1` and
`r2`, the `transfer_sent` entry of A carries `r1` and the `transfer_received` entry of B
carries `r2`. -/
theorem transfer_reference_ids_differ :
    (transferCredit demoEnv [alice, bob] alice bob._id 40 "gift" "r1" "r2" 7).1
      = .ok { success := true, transactionId := "r1", newBalance := 60 } ∧
    (historyOf (transferCredit demoEnv [alice, bob] alice bob._id 40 "gift" "r1" "r2" 7).2
        alice._id).map
      (fun h => h.map fun e => (e.type, e.referenceId)) = some [("transfer_sent", "r1")] ∧
    (historyOf (transferCredit demoEnv [alice, bob] alice bob._id 40 "gift" "r1" "r2" 7).2
        bob._id).map
      (fun h => h.map fun e => (e.type, e.referenceId)) = some [("transfer_received", "r2")] ∧
    ("r1" : String) ≠ "r2" :=
  ⟨rfl, by decide, by decide, by decide⟩

/-- C4 (amended). A successful transfer appends to the sender's history a `transfer_sent`
entry whose reference id is the first generated value, which is also the returned
`transactionId`, and to the recipient's history a `transfer_received` entry whose reference
id is the second, separately generated value; the two entries carry the same id exactly
when the two generated values coincide. The recipient is the user whose id the request
string `b` is cast to. -/
theorem transfer_reference_ids (env : Env) (users : List User) (sender recipient : User)
    (b rid : String) (amt : Int) (description ref1 ref2 : String) (now : Nat)
    (result : TransferResult) (users1 : List User)
    (hsender : findById users sender._id = some sender)
    (hcast : env.castObjectId b = some rid)
    (hrecipient : findById users rid = some recipient)
    (hok : transferCredit env users sender b amt description ref1 ref2 now
      = (.ok result, users1)) :
    ∃ sent received : CreditEntry,
      sent.type = "transfer_sent" ∧ received.type = "transfer_received" ∧
      sent.referenceId = ref1 ∧ received.referenceId = ref2 ∧
      result.transactionId = ref1 ∧
      historyOf users1 sender._id = some (sender.creditHistory ++
        if rid = sender._id then [sent, received] else [sent]) ∧
      historyOf users1 rid = some (recipient.creditHistory ++
        if rid = sender._id then [sent, received] else [received]) ∧
      (sent.referenceId = received.referenceId ↔ ref1 = ref2) := by
  obtain ⟨hres, hne, heq⟩ :=
    transferCredit_effect _ _ _ _ _ _ _ _ _ _ _ _ _ hsender hcast hrecipient hok
  refine ⟨sentEntry b amt description ref1 now, receivedEntry sender._id amt description ref2 now,
    rfl, rfl, rfl, rfl, by rw [hres], ?_, ?_, Iff.rfl⟩
  · by_cases hb : rid = sender._id
    · have h2 := heq hb
      rw [hb] at h2
      rw [if_pos hb]
      unfold historyOf
      rw [h2]
      simp
    · rw [if_neg hb]
      unfold historyOf
      rw [(hne hb).1]
      simp
  · by_cases hb : rid = sender._id
    · have h2 := heq hb
      have hrs : recipient = sender := by
        rw [hb, hsender] at hrecipient
        injection hrecipient with h
        exact h.symm
      rw [if_pos hb]
      unfold historyOf
      rw [h2, hrs]
      simp
    · rw [if_neg hb]
      unfold historyOf
      rw [(hne hb).2]
      simp

/-- The scenario transfer, read through the amended statement. -/
theorem transfer_reference_ids_witness :
    ∃ sent received : CreditEntry,
      sent.type = "transfer_sent" ∧ received.type = "transfer_received" ∧
      sent.referenceId = "r1" ∧ received.referenceId = "r2" ∧
      ({ success := true, transactionId := "r1", newBalance := 60 } : TransferResult).transactionId
        = "r1" ∧
      historyOf (transferCredit demoEnv [alice, bob] alice bob._id 40 "gift" "r1" "r2" 7).2
          alice._id
        = some (alice.creditHistory ++
            if bob._id = alice._id then [sent, received] else [sent]) ∧
      historyOf (transferCredit demoEnv [alice, bob] alice bob._id 40 "gift" "r1" "r2" 7).2
          bob._id
        = some (bob.creditHistory ++
            if bob._id = alice._id then [sent, received] else [received]) ∧
      (sent.referenceId = received.referenceId ↔ ("r1" : String) = "r2") :=
  transfer_reference_ids demoEnv [alice, bob] alice bob bob._id bob._id 40 "gift" "r1" "r2" 7
    { success := true, transactionId := "r1", newBalance := 60 }
    (transferCredit demoEnv [alice, bob] alice bob._id 40 "gift" "r1" "r2" 7).2
    (by decide) (by decide) (by decide) rfl

/-! ### C5: a transfer to oneself -/

/-- C5 fails as stated: A, holding 100, transfers 40 to itself; the call returns and A's
history, empty before, holds two entries afterwards. -/
theorem self_transfer_accepted :
    (transferCredit demoEnv [alice, bob] alice alice._id 40 "" "r1" "r2" 7).1
      = .ok { success := true, transactionId := "r1", newBalance := 60 } ∧
    historyOf [alice, bob] alice._id = some [] ∧
    historyOf (transferCredit demoEnv [alice, bob] alice alice._id 40 "" "r1" "r2" 7).2
        alice._id
      = some [sentEntry alice._id 40 "" "r1" 7, receivedEntry alice._id 40 "" "r2" 7] :=
  ⟨rfl, by decide, by decide⟩

/-- The credit of a transfer to oneself is rewritten through two rounded operations: a
user holding 2 ^ 53 + 2 who transfers 1 to itself is left with 2 ^ 53; and, counted in the
unit `2 ^ (-57)`, a user holding 0.11 (15852670688344146 units) who transfers 0.04
(5764607523034235 units) to itself is left with 0.11000000000000001 (15852670688344148
units). -/
theorem self_transfer_rounded :
    creditOf (transferCredit demoEnv [{ alice with credit := 9007199254740994 }, bob]
        { alice with credit := 9007199254740994 } alice._id 1 "" "r1" "r2" 7).2 alice._id
      = some 9007199254740992 ∧
    creditOf (transferCredit demoEnv [{ alice with credit := 15852670688344146 }, bob]
        { alice with credit := 15852670688344146 } alice._id 5764607523034235 "" "r1" "r2" 7).2
        alice._id
      = some 15852670688344148 :=
  ⟨by decide, by decide⟩

/-- C5 (amended). A transfer whose recipient is the sender `u` itself is not rejected for
that reason. When `u`'s credit is less than the amount it fails with
'Insufficient credit' and nothing changes. When the amount is not negative and covered it
returns: `u`'s history has gained a `transfer_sent` entry followed by a
`transfer_received` entry, and `u`'s stored credit is the result of the subtraction
followed by the addition, each rounded to a Number; it is the old credit when that has
magnitude at most `2 ^ 53` (in the unit the credits are counted in). -/
theorem self_transfer (env : Env) (users : List User) (u : User) (b : String) (amt : Int)
    (description ref1 ref2 : String) (now : Nat)
    (hu : findById users u._id = some u)
    (hcast : env.castObjectId b = some u._id) :
    (u.credit < amt →
      transferCredit env users u b amt description ref1 ref2 now
        = (.error (.error "Insufficient credit"), users)) ∧
    (0 ≤ amt → amt ≤ u.credit →
      (transferCredit env users u b amt description ref1 ref2 now).1
        = .ok { success := true, transactionId := ref1,
                newBalance := roundNumber (u.credit - amt) } ∧
      historyOf (transferCredit env users u b amt description ref1 ref2 now).2 u._id
        = some (u.creditHistory ++ [sentEntry b amt description ref1 now,
            receivedEntry u._id amt description ref2 now]) ∧
      creditOf (transferCredit env users u b amt description ref1 ref2 now).2 u._id
        = some (roundNumber (roundNumber (u.credit - amt) + amt)) ∧
      (u.credit.natAbs ≤ 2 ^ 53 →
        creditOf (transferCredit env users u b amt description ref1 ref2 now).2 u._id
          = some u.credit)) := by
  constructor
  · intro h
    exact transferCredit_uncovered env users u b amt description ref1 ref2 now h
  · intro hpos hle
    have s1 : saveCreditPush users u (jsSub u.credit amt) (sentEntry b amt description ref1 now)
        = .ok (updateOne users u._id
            (savedDoc u (jsSub u.credit amt) (sentEntry b amt description ref1 now))) := by
      apply saveCreditPush_eq_ok
      · intro _; exact jsSub_nonneg _ _ hle
      · simp [sentEntry, creditTypes]
      · simp [hu]
    have f1 : findById (updateOne users u._id
        (savedDoc u (jsSub u.credit amt) (sentEntry b amt description ref1 now))) u._id
        = some (savedDoc u (jsSub u.credit amt) (sentEntry b amt description ref1 now) u) := by
      rw [findById_saved, if_pos rfl, hu]; rfl
    have f2 : User.findById env (updateOne users u._id
        (savedDoc u (jsSub u.credit amt) (sentEntry b amt description ref1 now))) b
        = .ok (some (savedDoc u (jsSub u.credit amt) (sentEntry b amt description ref1 now) u))
        := by
      rw [user_findById_eq _ _ _ _ hcast, f1]
    have s2 := saveCreditPush_eq_ok (updateOne users u._id
        (savedDoc u (jsSub u.credit amt) (sentEntry b amt description ref1 now)))
        (savedDoc u (jsSub u.credit amt) (sentEntry b amt description ref1 now) u)
        (jsAdd (savedDoc u (jsSub u.credit amt) (sentEntry b amt description ref1 now) u).credit
          amt)
        (receivedEntry u._id amt description ref2 now)
        (by intro _; rw [savedDoc_credit_self]
            exact jsAdd_nonneg _ _ (jsSub_nonneg _ _ hle) hpos)
        (by simp [receivedEntry, creditTypes])
        (by rw [savedDoc_id, f1]; rfl)
    have hfst : (transferCredit env users u b amt description ref1 ref2 now).1
        = .ok { success := true, transactionId := ref1,
                newBalance := roundNumber (u.credit - amt) } := by
      unfold transferCredit transferCreditTry
      rw [if_neg (not_lt.2 hle)]
      simp only [s1, f2, s2]
      simp [sentEntry, jsSub]
    have hcall : transferCredit env users u b amt description ref1 ref2 now
        = (.ok { success := true, transactionId := ref1,
                 newBalance := roundNumber (u.credit - amt) },
            (transferCredit env users u b amt description ref1 ref2 now).2) :=
      Prod.ext hfst rfl
    obtain ⟨-, -, heq⟩ := transferCredit_effect _ _ _ _ _ _ _ _ _ _ _ _ _ hu hcast hu hcall
    have h2 := heq rfl
    have hcredit : creditOf (transferCredit env users u b amt description ref1 ref2 now).2 u._id
        = some (roundNumber (roundNumber (u.credit - amt) + amt)) := by
      unfold creditOf
      rw [h2]
      simp only [Option.map_some', savedDoc_credit_self]
      rfl
    refine ⟨hfst, ?_, hcredit, ?_⟩
    · unfold historyOf
      rw [h2]
      simp
    · intro hsafe
      rw [hcredit, roundNumber_of_natAbs_le (u.credit - amt) (by omega)]
      rw [show u.credit - amt + amt = u.credit by omega, roundNumber_of_natAbs_le _ hsafe]

/-- A holding 100 transfers 40 to itself. -/
theorem self_transfer_witness :
    creditOf (transferCredit demoEnv [alice, bob] alice alice._id 40 "" "r1" "r2" 7).2 alice._id
      = some alice.credit :=
  ((self_transfer demoEnv [alice, bob] alice alice._id 40 "" "r1" "r2" 7 (by decide)
    (by decide)).2 (by decide) (by decide)).2.2.2 (by decide)

/-! ### C6: unknown recipient -/

/-- C6 fails as stated: no user has the id `ffffffffffffffffffffffff`, yet B, holding 10,
asking to move 40 to it is refused with 'Insufficient credit', the balance being checked
first. -/
theorem unknown_recipient_insufficient_first :
    User.findById demoEnv [bob, alice] "ffffffffffffffffffffffff" = .ok none ∧
    (transferCredit demoEnv [bob, alice] bob "ffffffffffffffffffffffff" 40 "" "r1" "r2" 0).1
      = .error (.error "Insufficient credit") ∧
    JsError.error "Insufficient credit" ≠ JsError.error "Recipient not found" :=
  ⟨rfl, rfl, by decide⟩

/-- C6 (amended). A transfer from a freshly loaded sender to a recipient string matching no
user always fails and leaves the collection as it was: with 'Insufficient credit' when the
sender's credit does not cover the amount; otherwise with 'Recipient not found' when the
string is cast to an ObjectId that no user carries, and with a `CastError` when the string
is refused by the cast (the debit written inside the transaction is rolled back in both
cases). -/
theorem unknown_recipient (env : Env) (users : List User) (sender : User) (b : String)
    (amt : Int) (description ref1 ref2 : String) (now : Nat)
    (hsender : findById users sender._id = some sender) :
    (sender.credit < amt →
      transferCredit env users sender b amt description ref1 ref2 now
        = (.error (.error "Insufficient credit"), users)) ∧
    (amt ≤ sender.credit → ∀ rid, env.castObjectId b = some rid → findById users rid = none →
      transferCredit env users sender b amt description ref1 ref2 now
        = (.error (.error "Recipient not found"), users)) ∧
    (amt ≤ sender.credit → env.castObjectId b = none →
      transferCredit env users sender b amt description ref1 ref2 now
        = (.error (.castError "_id"), users)) := by
  have s1 : amt ≤ sender.credit →
      saveCreditPush users sender (jsSub sender.credit amt)
        (sentEntry b amt description ref1 now)
        = .ok (updateOne users sender._id
            (savedDoc sender (jsSub sender.credit amt)
              (sentEntry b amt description ref1 now))) := by
    intro hle
    apply saveCreditPush_eq_ok
    · intro _; exact jsSub_nonneg _ _ hle
    · simp [sentEntry, creditTypes]
    · simp [hsender]
  refine ⟨?_, ?_, ?_⟩
  · intro hlt
    exact transferCredit_uncovered env users sender b amt description ref1 ref2 now hlt
  · intro hle rid hcast hmissing
    have hne : rid ≠ sender._id := by
      intro h
      rw [h, hsender] at hmissing
      cases hmissing
    have f1 : User.findById env (updateOne users sender._id
        (savedDoc sender (jsSub sender.credit amt) (sentEntry b amt description ref1 now))) b
        = .ok none := by
      rw [user_findById_eq _ _ _ _ hcast, findById_saved, if_neg hne, hmissing]
    unfold transferCredit transferCreditTry
    rw [if_neg (not_lt.2 hle)]
    simp only [s1 hle, f1]
  · intro hle hcast
    have f1 : User.findById env (updateOne users sender._id
        (savedDoc sender (jsSub sender.credit amt) (sentEntry b amt description ref1 now))) b
        = .error (.castError "_id") := by
      unfold User.findById
      rw [hcast]
    unfold transferCredit transferCreditTry
    rw [if_neg (not_lt.2 hle)]
    simp only [s1 hle, f1]

/-- A, holding 100, asks to move 40 to the well-formed id `ffffffffffffffffffffffff`, which
no user carries, and to the string `zz`, which is no ObjectId. -/
theorem unknown_recipient_witness :
    transferCredit demoEnv [alice, bob] alice "ffffffffffffffffffffffff" 40 "" "r1" "r2" 0
      = (.error (.error "Recipient not found"), [alice, bob]) ∧
    transferCredit demoEnv [alice, bob] alice "zz" 40 "" "r1" "r2" 0
      = (.error (.castError "_id"), [alice, bob]) :=
  ⟨(unknown_recipient demoEnv [alice, bob] alice "ffffffffffffffffffffffff" 40 "" "r1" "r2" 0
      (by decide)).2.1 (by decide) "ffffffffffffffffffffffff" (by decide) (by decide),
   (unknown_recipient demoEnv [alice, bob] alice "zz" 40 "" "r1" "r2" 0
      (by decide)).2.2 (by decide) (by decide)⟩

/-! ### C7: non-positive amounts -/

/-- C7 fails as stated: `User.transferCredit` called with the amount -5 returns; the
sender's credit goes from 100 to 105 and the recipient's from 10 to 5. With the amount 0
it returns as well and both histories gain an entry. -/
theorem negative_amount_accepted :
    (transferCredit demoEnv [alice, bob] alice bob._id (-5) "" "r1" "r2" 7).1
      = .ok { success := true, transactionId := "r1", newBalance := 105 } ∧
    creditOf (transferCredit demoEnv [alice, bob] alice bob._id (-5) "" "r1" "r2" 7).2 alice._id
      = some 105 ∧
    creditOf (transferCredit demoEnv [alice, bob] alice bob._id (-5) "" "r1" "r2" 7).2 bob._id
      = some 5 ∧
    (transferCredit demoEnv [alice, bob] alice bob._id 0 "" "r1" "r2" 7).1
      = .ok { success := true, transactionId := "r1", newBalance := 100 } ∧
    historyOf (transferCredit demoEnv [alice, bob] alice bob._id 0 "" "r1" "r2" 7).2 bob._id
      = some [receivedEntry alice._id 0 "" "r2" 7] :=
  ⟨rfl, by decide, by decide, rfl, by decide⟩

/-- C7 (amended). The amount is checked by the handler, not by the method: for every
amount `≤ 0`, `UserController.transferCredit` answers 400 without calling
`User.transferCredit` ('Recipient and amount are required' when the recipient is missing
or the amount is 0, 'Amount must be greater than 0' otherwise) and the collection is
unchanged. -/
theorem controller_rejects_nonpositive (env : Env) (users : List User) (userId : String)
    (body : TransferBody) (amt : Int) (ref1 ref2 : String) (now : Nat)
    (hamt : body.amount = some amt) (hle : amt ≤ 0) :
    UserController.transferCredit env users userId body ref1 ref2 now
      = ({ status := 400, success := false,
           error := some (if falsyString body.toUserId || decide (amt = 0)
             then "Recipient and amount are required" else "Amount must be greater than 0") },
          none, users) := by
  unfold UserController.transferCredit
  by_cases h : (falsyString body.toUserId || falsyNumber body.amount) = true
  · have h' : (falsyString body.toUserId || decide (amt = 0)) = true := by
      simpa [hamt, falsyNumber] using h
    rw [if_pos h, if_pos h']
  · have h' : ¬ (falsyString body.toUserId || decide (amt = 0)) = true := by
      simpa [hamt, falsyNumber] using h
    rw [if_neg h, if_neg h']
    simp [hamt, hle]

/-- A request to transfer -5 made by A. -/
theorem controller_rejects_nonpositive_witness :
    UserController.transferCredit demoEnv [alice, bob] alice._id
      { toUserId := some bob._id, amount := some (-5) } "r1" "r2" 7
      = ({ status := 400, success := false, error := some "Amount must be greater than 0" },
          none, [alice, bob]) :=
  controller_rejects_nonpositive demoEnv [alice, bob] alice._id
    { toUserId := some bob._id, amount := some (-5) } (-5) "r1" "r2" 7 rfl (by decide)


/-! ## Lemmas on sessions -/

theorem generateTokens_throws (env : Env) (s : State) (user : User)
    (application : Option Application) (newId : String) :
    ∃ e, AuthController.generateTokens env s user application newId = .error e := by
  unfold AuthController.generateTokens
  cases h1 : env.jwtSign
      { userId := some user._id, username := some user.username,
        userType := some user.userType, applicationId := application.map (·._id) }
      env.JWT_SECRET env.ACCESS_TOKEN_EXPIRY s.now with
  | error e => exact ⟨e, rfl⟩
  | ok a =>
    cases h2 : env.jwtSign { userId := some user._id, tokenType := some "refresh" }
        env.JWT_REFRESH_SECRET env.REFRESH_TOKEN_EXPIRY s.now with
    | error e => exact ⟨e, rfl⟩
    | ok r => exact ⟨.referenceError "req", rfl⟩

theorem generateTokens_ne_ok (env : Env) (s : State) (user : User)
    (application : Option Application) (newId : String) (r : TokenPair × State) :
    AuthController.generateTokens env s user application newId ≠ .ok r := by
  obtain ⟨e, he⟩ := generateTokens_throws env s user application newId
  rw [he]
  intro h
  cases h

theorem redisClientSetex_throws (redis : List CacheEntry) (now : Nat) (key : String)
    (seconds : Nat) (value : String) :
    redisClientSetex redis now key seconds value = .error .typeError := rfl

theorem mem_updateSession (sessions : List Session) (id : String) (f : Session → Session)
    (v : Session) (hv : v ∈ updateSession sessions id f) :
    v ∈ sessions ∨ ∃ u ∈ sessions, v = f u := by
  induction sessions with
  | nil => simp [updateSession] at hv
  | cons u rest ih =>
    unfold updateSession at hv
    split at hv
    · rcases List.mem_cons.1 hv with h | h
      · exact Or.inr ⟨u, List.mem_cons_self _ _, h⟩
      · exact Or.inl (List.mem_cons_of_mem _ h)
    · rcases List.mem_cons.1 hv with h | h
      · exact Or.inl (h ▸ List.mem_cons_self _ _)
      · rcases ih h with h1 | ⟨w, hw, hw2⟩
        · exact Or.inl (List.mem_cons_of_mem _ h1)
        · exact Or.inr ⟨w, List.mem_cons_of_mem _ hw, hw2⟩

theorem marked_updateSession (sel : Session → Bool) (hsel : TokenSelector sel)
    (sessions : List Session) (id : String) (f : Session → Session)
    (hf : ∀ x, (f x)._id = x._id ∧ (f x).accessToken = x.accessToken ∧
      (f x).refreshToken = x.refreshToken ∧ (x.isRevoked = true → (f x).isRevoked = true))
    (h : Marked sel sessions) : Marked sel (updateSession sessions id f) := by
  intro v hv hs
  rcases mem_updateSession _ _ _ _ hv with h1 | ⟨u, hu, rfl⟩
  · exact h v h1 hs
  · have := hsel (f u) u (hf u).1 (hf u).2.1 (hf u).2.2.1
    exact (hf u).2.2.2 (h u hu (this ▸ hs))

theorem marked_saveRevoked (sel : Session → Bool) (hsel : TokenSelector sel)
    (sessions sessions1 : List Session) (doc : Session) (now : Nat)
    (h : Marked sel sessions) (hs : saveRevoked sessions doc now = .ok sessions1) :
    Marked sel sessions1 := by
  unfold saveRevoked at hs
  split at hs
  · injection hs with hs; exact hs ▸ h
  · split at hs
    · cases hs
    · injection hs with hs
      rw [← hs]
      apply marked_updateSession sel hsel _ _ _ _ h
      intro x
      refine ⟨rfl, rfl, rfl, ?_⟩
      intro hx
      by_cases hd : doc.isRevoked = true <;> simp [hd, hx]

theorem saveRevoked_ok_of_mem (sessions : List Session) (x : Session) (now : Nat)
    (hx : x ∈ sessions) : ∃ sessions1, saveRevoked sessions x now = .ok sessions1 := by
  unfold saveRevoked
  split
  · exact ⟨_, rfl⟩
  · have h2 : ¬ (sessions.find? fun y => decide (y._id = x._id)).isNone = true := by
      rw [Option.isNone_iff_eq_none, List.find?_eq_none]
      intro hall
      exact hall x hx (by simp)
    rw [if_neg h2]
    exact ⟨_, rfl⟩

theorem length_updateSession (sessions : List Session) (id : String) (f : Session → Session) :
    (updateSession sessions id f).length = sessions.length := by
  induction sessions with
  | nil => rfl
  | cons x rest ih =>
    unfold updateSession
    split
    · rfl
    · simp [ih]

theorem length_saveRevoked (sessions sessions1 : List Session) (doc : Session) (now : Nat)
    (hs : saveRevoked sessions doc now = .ok sessions1) : sessions1.length = sessions.length := by
  unfold saveRevoked at hs
  split at hs
  · injection hs with hs; rw [← hs]
  · split at hs
    · cases hs
    · injection hs with hs
      rw [← hs, length_updateSession]

/-- The answer of `verifyToken`: a request without a bearer header is answered
401 'Access token required'; for every other request `redis.get` throws a `TypeError`,
which the `catch` block answers with 500 'Authentication failed'. Nothing is written. -/
theorem verifyToken_answer (env : Env) (s : State) (authorization : Option String) :
    AuthMiddleware.verifyToken env s authorization =
      (.respond
        (if falsyString authorization || !jsStartsWith (authorization.getD "") "Bearer " then
          { status := 401, success := false, error := some "Access token required" }
        else
          { status := 500, success := false, error := some "Authentication failed" }),
        s) := by
  unfold AuthMiddleware.verifyToken
  split
  · rfl
  · rfl

/-- The middleware never calls `next()`. -/
theorem verifyToken_ne_next (env : Env) (s : State) (authorization : Option String)
    (user : User) (session : Session) (token : String) :
    (AuthMiddleware.verifyToken env s authorization).1 ≠ .next user session token := by
  rw [verifyToken_answer]
  intro h
  cases h

/-- The answer of `logout`: 500 'Logout failed' in every case. Without a session on the
request nothing is written; otherwise the session is saved revoked, and `redis.setex`
throws a `TypeError` before any cache entry is written. -/
theorem logout_answer (s : State) (session : Option Session) :
    AuthController.logout s session =
      ({ status := 500, success := false, error := some "Logout failed" },
        match session with
        | none => s
        | some x =>
          match saveRevoked s.sessions x s.now with
          | .error _ => s
          | .ok sessions1 => { s with sessions := sessions1 }) := by
  unfold AuthController.logout
  cases session with
  | none => rfl
  | some x =>
    dsimp only
    cases saveRevoked s.sessions x s.now <;> rfl

/-- The answer of `refreshToken` once the token is verified, the session found and the
user active: the session is saved revoked, `redis.setex` throws a `TypeError`, and the
`catch` block answers 500 'Token refresh failed'. -/
theorem refreshToken_retires (env : Env) (s : State) (x : Session) (user : User)
    (token newId : String) (payload : JwtPayload) (hne : token ≠ "")
    (hverify : env.jwtVerify token env.JWT_REFRESH_SECRET s.now = .ok payload)
    (hfind : findActiveByRefresh s.sessions s.now token = some x)
    (huser : findById s.users x.userId = some user) (hactive : user.isActive = true) :
    ∃ sessions1, saveRevoked s.sessions x s.now = .ok sessions1 ∧
      AuthController.refreshToken env s (some token) newId =
        ({ status := 500, success := false, error := some "Token refresh failed" }, none,
          { s with sessions := sessions1 }) := by
  have hxmem : x ∈ s.sessions := List.mem_of_find?_eq_some hfind
  obtain ⟨sessions1, hsave⟩ := saveRevoked_ok_of_mem s.sessions x s.now hxmem
  have hfalsy : falsyString (some token) = false := by simp [falsyString, hne]
  have hfilter : (findById s.users x.userId).filter (·.isActive) = some user := by
    rw [huser]; simp [Option.filter, hactive]
  refine ⟨sessions1, hsave, ?_⟩
  unfold AuthController.refreshToken
  simp only [hfalsy, Option.getD_some, hverify, hfind, hfilter, hsave, redisClientSetex_throws]
  rfl

/-- No call of `refreshToken` answers with a success, returns tokens, or writes anything
but the sessions. -/
theorem refreshToken_never_succeeds (env : Env) (s : State) (token : Option String)
    (newId : String) :
    (AuthController.refreshToken env s token newId).1.success = false ∧
    (AuthController.refreshToken env s token newId).2.1 = none ∧
    (AuthController.refreshToken env s token newId).2.2.redis = s.redis ∧
    (AuthController.refreshToken env s token newId).2.2.users = s.users ∧
    (AuthController.refreshToken env s token newId).2.2.now = s.now ∧
    (AuthController.refreshToken env s token newId).2.2.sessions.length = s.sessions.length := by
  have hc : ∀ e, (AuthController.refreshTokenCatch e).success = false := by
    intro e
    unfold AuthController.refreshTokenCatch
    split <;> rfl
  unfold AuthController.refreshToken
  split
  · exact ⟨rfl, rfl, rfl, rfl, rfl, rfl⟩
  · dsimp only
    split
    · exact ⟨hc _, rfl, rfl, rfl, rfl, rfl⟩
    · split
      · exact ⟨rfl, rfl, rfl, rfl, rfl, rfl⟩
      · split
        · exact ⟨rfl, rfl, rfl, rfl, rfl, rfl⟩
        · split
          · exact ⟨hc _, rfl, rfl, rfl, rfl, rfl⟩
          · rename_i sessions1 hs
            simp only [redisClientSetex_throws]
            exact ⟨hc _, trivial, trivial, trivial, trivial, length_saveRevoked _ _ _ _ hs⟩

theorem marked_refreshToken (env : Env) (sel : Session → Bool) (hsel : TokenSelector sel)
    (s : State) (token : Option String) (newId : String) (h : Marked sel s.sessions) :
    Marked sel (AuthController.refreshToken env s token newId).2.2.sessions := by
  unfold AuthController.refreshToken
  split
  · exact h
  · dsimp only
    split
    · exact h
    · split
      · exact h
      · split
        · exact h
        · split
          · exact h
          · rename_i sessions1 hs
            simp only [redisClientSetex_throws]
            exact marked_saveRevoked sel hsel _ _ _ _ h hs

theorem marked_logout (sel : Session → Bool) (hsel : TokenSelector sel)
    (s : State) (session : Option Session) (h : Marked sel s.sessions) :
    Marked sel (AuthController.logout s session).2.sessions := by
  rw [logout_answer]
  cases session with
  | none => exact h
  | some x =>
    dsimp only
    cases hs : saveRevoked s.sessions x s.now with
    | error e => exact h
    | ok sessions1 => exact marked_saveRevoked sel hsel _ _ _ _ h hs

theorem marked_verifyToken (env : Env) (sel : Session → Bool)
    (s : State) (authorization : Option String) (h : Marked sel s.sessions) :
    Marked sel (AuthMiddleware.verifyToken env s authorization).2.sessions := by
  rw [verifyToken_answer]
  exact h

/-- The handler `register` writes users only. -/
theorem register_sessions (env : Env) (s : State) (body : RegisterBody)
    (newUserId code newSessionId : String) :
    (AuthController.register env s body newUserId code newSessionId).2.2.sessions = s.sessions ∧
    (AuthController.register env s body newUserId code newSessionId).2.2.redis = s.redis ∧
    (AuthController.register env s body newUserId code newSessionId).2.2.now = s.now ∧
    (AuthController.register env s body newUserId code newSessionId).2.2.applications
      = s.applications ∧
    (AuthController.register env s body newUserId code newSessionId).1.success = false ∧
    (AuthController.register env s body newUserId code newSessionId).2.1 = none := by
  unfold AuthController.register
  split
  · exact ⟨rfl, rfl, rfl, rfl, rfl, rfl⟩
  · dsimp only
    split
    · exact ⟨rfl, rfl, rfl, rfl, rfl, rfl⟩
    · rename_i users2 saved hs
      split
      · exact ⟨rfl, rfl, rfl, rfl, rfl, rfl⟩
      · rename_i tokens s3 hg
        obtain ⟨e, he⟩ := generateTokens_throws env _ saved none newSessionId
        rw [he] at hg
        cases hg

/-- The handler `login` writes users only. -/
theorem login_sessions (env : Env) (s : State) (body : LoginBody) (newSessionId : String) :
    (AuthController.login env s body newSessionId).2.2.sessions = s.sessions ∧
    (AuthController.login env s body newSessionId).2.2.redis = s.redis ∧
    (AuthController.login env s body newSessionId).2.2.now = s.now ∧
    (AuthController.login env s body newSessionId).2.2.applications = s.applications ∧
    (AuthController.login env s body newSessionId).1.success = false ∧
    (AuthController.login env s body newSessionId).2.1 = none := by
  unfold AuthController.login
  split
  · exact ⟨rfl, rfl, rfl, rfl, rfl, rfl⟩
  · split
    · exact ⟨rfl, rfl, rfl, rfl, rfl, rfl⟩
    · split
      · exact ⟨rfl, rfl, rfl, rfl, rfl, rfl⟩
      · dsimp only
        repeat' split
        all_goals first
          | exact ⟨rfl, rfl, rfl, rfl, rfl, rfl⟩
          | (rename_i hg; exact absurd hg (generateTokens_ne_ok _ _ _ _ _ _))

theorem marked_step (env : Env) (sel : Session → Bool) (hsel : TokenSelector sel)
    (s : State) (event : Event) (h : Marked sel s.sessions) :
    Marked sel (step env s event).sessions := by
  cases event with
  | register body newUserId code newSessionId =>
    simp only [step, (register_sessions env s body newUserId code newSessionId).1]
    exact h
  | login body newSessionId =>
    simp only [step, (login_sessions env s body newSessionId).1]
    exact h
  | verifyToken authorization => exact marked_verifyToken env sel s authorization h
  | refreshToken token newId => exact marked_refreshToken env sel hsel s token newId h
  | logout session => exact marked_logout sel hsel s session h
  | generateTokens user application newId =>
    obtain ⟨e, he⟩ := generateTokens_throws env s user application newId
    simp only [step, he]
    exact h
  | writeUsers users => exact h
  | writeApplications applications => exact h
  | tick milliseconds => exact h
  | ttlExpire ids =>
    intro x hx
    exact h x (List.mem_of_mem_filter hx)
  | cacheLoss keys => exact h

/-- Once every session selected by a token is revoked, it stays so along every history. -/
theorem marked_run (env : Env) (sel : Session → Bool) (hsel : TokenSelector sel)
    (s : State) (events : List Event) (h : Marked sel s.sessions) :
    Marked sel (run env s events).sessions := by
  unfold run
  induction events generalizing s with
  | nil => exact h
  | cons event rest ih =>
    rw [List.foldl_cons]
    exact ih _ (marked_step env sel hsel s event h)

theorem tokenSelector_id (id : String) :
    TokenSelector fun x => decide (x._id = id) := by
  intro x y h _ _
  simp only [h]

theorem find?_mem_session (sessions : List Session) (p : Session → Bool) (x : Session)
    (h : sessions.find? p = some x) : x ∈ sessions ∧ p x = true :=
  ⟨List.mem_of_find?_eq_some h, List.find?_some h⟩

/-- No event stores a new session: `generateTokens`, the only place that builds one, throws
before `session.save()`. -/
theorem sessions_length_step (env : Env) (s : State) (event : Event) :
    (step env s event).sessions.length ≤ s.sessions.length := by
  cases event with
  | register body newUserId code newSessionId =>
    simp only [step, (register_sessions env s body newUserId code newSessionId).1]
    exact Nat.le_refl _
  | login body newSessionId =>
    simp only [step, (login_sessions env s body newSessionId).1]
    exact Nat.le_refl _
  | verifyToken authorization =>
    simp only [step, verifyToken_answer]
    exact Nat.le_refl _
  | refreshToken token newId =>
    simp only [step, (refreshToken_never_succeeds env s token newId).2.2.2.2.2]
    exact Nat.le_refl _
  | logout session =>
    simp only [step, logout_answer]
    cases session with
    | none => exact Nat.le_refl _
    | some x =>
      dsimp only
      cases hs : saveRevoked s.sessions x s.now with
      | error e => exact Nat.le_refl _
      | ok sessions1 => exact Nat.le_of_eq (length_saveRevoked _ _ _ _ hs)
  | generateTokens user application newId =>
    obtain ⟨e, he⟩ := generateTokens_throws env s user application newId
    simp only [step, he]
    exact Nat.le_refl _
  | writeUsers users => exact Nat.le_refl _
  | writeApplications applications => exact Nat.le_refl _
  | tick milliseconds => exact Nat.le_refl _
  | ttlExpire ids => exact List.length_filter_le _ _
  | cacheLoss keys => exact Nat.le_refl _

theorem sessions_length_run (env : Env) (s : State) (events : List Event) :
    (run env s events).sessions.length ≤ s.sessions.length := by
  unfold run
  induction events generalizing s with
  | nil => exact Nat.le_refl _
  | cons event rest ih =>
    rw [List.foldl_cons]
    exact Nat.le_trans (ih _) (sessions_length_step env s event)


theorem updateSession_mem (sessions : List Session) (id : String) (f : Session → Session)
    (h : ∃ u ∈ sessions, u._id = id) :
    ∃ u ∈ sessions, u._id = id ∧ f u ∈ updateSession sessions id f := by
  induction sessions with
  | nil =>
    obtain ⟨u, hu, -⟩ := h
    cases hu
  | cons x rest ih =>
    unfold updateSession
    by_cases hx : x._id = id
    · rw [if_pos hx]
      exact ⟨x, List.mem_cons_self _ _, hx, List.mem_cons_self _ _⟩
    · rw [if_neg hx]
      obtain ⟨u, hu, hid⟩ := h
      rcases List.mem_cons.1 hu with h1 | h1
      · exact absurd (h1 ▸ hid) hx
      · obtain ⟨v, hv, hvid, hvm⟩ := ih ⟨u, h1, hid⟩
        exact ⟨v, List.mem_cons_of_mem _ hv, hvid, List.mem_cons_of_mem _ hvm⟩

/-- Saving an unrevoked session document revoked writes the flag onto the stored session
with its `_id`. -/
theorem saveRevoked_revokes (sessions : List Session) (x : Session) (now : Nat)
    (hstored : ∃ u ∈ sessions, u._id = x._id) (hactive : x.isRevoked = false) :
    ∃ sessions1, saveRevoked sessions x now = .ok sessions1 ∧
      ∃ y ∈ sessions1, y._id = x._id ∧ y.isRevoked = true := by
  have h1 : ¬ (x.isRevoked = true ∧ x.revokedAt = some now) := by simp [hactive]
  have h2 : ¬ (sessions.find? fun y => decide (y._id = x._id)).isNone = true := by
    rw [Option.isNone_iff_eq_none, List.find?_eq_none]
    intro hall
    obtain ⟨u, hu, hid⟩ := hstored
    exact hall u hu (by simp [hid])
  obtain ⟨u, -, hid, hmem⟩ := updateSession_mem sessions x._id
    (fun y => { y with
      isRevoked := if x.isRevoked = true then y.isRevoked else true
      revokedAt := if x.revokedAt = some now then y.revokedAt else some now }) hstored
  refine ⟨_, by unfold saveRevoked; rw [if_neg h1, if_neg h2], _, hmem, hid, ?_⟩
  simp [hactive]

/-! ### C8: a refresh token is used once -/

/-- C8, the code at the failing input. A `refreshToken` call with a token that passes
`jwt.verify`, whose session is found active and whose user is active, saves the session
revoked and is then answered 500 'Token refresh failed': `redis.setex` throws a `TypeError`
on the `null` binding, no tokens are returned and no session is created. The first,
successful call the claim starts from does not exist: no call of `refreshToken` answers
with a success. -/
theorem refreshToken_valid_token_fails (env : Env) (s : State) (x : Session) (user : User)
    (token newId : String) (payload : JwtPayload) (hne : token ≠ "")
    (hverify : env.jwtVerify token env.JWT_REFRESH_SECRET s.now = .ok payload)
    (hfind : findActiveByRefresh s.sessions s.now token = some x)
    (huser : findById s.users x.userId = some user) (hactive : user.isActive = true) :
    (∃ sessions1, saveRevoked s.sessions x s.now = .ok sessions1 ∧
      sessions1.length = s.sessions.length ∧
      (∃ y ∈ sessions1, y._id = x._id ∧ y.isRevoked = true) ∧
      AuthController.refreshToken env s (some token) newId =
        ({ status := 500, success := false, error := some "Token refresh failed" }, none,
          { s with sessions := sessions1 })) ∧
    ∀ (s1 : State) (token1 : Option String) (newId1 : String),
      (AuthController.refreshToken env s1 token1 newId1).1.success = false ∧
      (AuthController.refreshToken env s1 token1 newId1).2.1 = none := by
  obtain ⟨sessions1, hsave, hcall⟩ :=
    refreshToken_retires env s x user token newId payload hne hverify hfind huser hactive
  obtain ⟨hxmem, hxp⟩ := find?_mem_session _ _ _ hfind
  have hxrev : x.isRevoked = false := by
    simp only [Bool.and_eq_true, Bool.not_eq_true', decide_eq_true_eq] at hxp
    exact hxp.1.2
  obtain ⟨sessions2, hsave2, hy⟩ :=
    saveRevoked_revokes s.sessions x s.now ⟨x, hxmem, rfl⟩ hxrev
  rw [hsave] at hsave2
  injection hsave2 with hsave2
  subst hsave2
  refine ⟨⟨sessions1, hsave, length_saveRevoked _ _ _ _ hsave, hy, hcall⟩, ?_⟩
  intro s1 token1 newId1
  exact ⟨(refreshToken_never_succeeds env s1 token1 newId1).1,
    (refreshToken_never_succeeds env s1 token1 newId1).2.1⟩

/-- The refresh token `R1` of the active session of user A, one second after the session
was created: the session is stored revoked and the answer is 500. -/
theorem refreshToken_valid_token_fails_witness :
    AuthController.refreshToken demoEnv demoState (some "R1") "s2" =
      ({ status := 500, success := false, error := some "Token refresh failed" }, none,
        { demoState with
          sessions := [{ demoSession with isRevoked := true, revokedAt := some 1000 }] }) := by
  obtain ⟨⟨sessions1, hsave, -, -, hcall⟩, -⟩ :=
    refreshToken_valid_token_fails demoEnv demoState demoSession alice "R1" "s2"
      { userId := some alice._id, tokenType := some "refresh" }
      (by decide) rfl (by decide) (by decide) (by decide)
  have h2 : saveRevoked demoState.sessions demoSession demoState.now
      = .ok [{ demoSession with isRevoked := true, revokedAt := some 1000 }] := rfl
  rw [h2] at hsave
  injection hsave with hsave
  rw [hcall, ← hsave]

/-! ### C9: the cache check -/

/-- C9, the code at the failing input. For a bearer token for which the Redis server holds
a live revocation entry, `verifyToken` does not answer 401 'Token has been revoked': the
call `redis.get` throws a `TypeError` on the `null` binding, the `catch` block answers
500 'Authentication failed', and the entry is never read. The request is not let through
and nothing is written. -/
theorem revoked_token_answered_500 (env : Env) (s : State) (authorization : String)
    (hbearer : jsStartsWith authorization "Bearer " = true)
    (hcache : RevocationCacheHolds s (bearerToken authorization)) :
    redisClientGet s.redis s.now (revokedKey (bearerToken authorization))
      = .error .typeError ∧
    AuthMiddleware.verifyToken env s (some authorization)
      = (.respond { status := 500, success := false, error := some "Authentication failed" },
          s) := by
  have hne : authorization ≠ "" := by
    intro h0
    rw [h0] at hbearer
    exact absurd hbearer (by decide)
  refine ⟨rfl, ?_⟩
  rw [verifyToken_answer]
  simp [falsyString, hne, hbearer]

/-- The access token `A1` with a live entry `token:revoked:A1` on the server. -/
theorem revoked_token_answered_500_witness :
    RevocationCacheHolds revokedCacheState "A1" ∧
    AuthMiddleware.verifyToken demoEnv revokedCacheState (some "Bearer A1")
      = (.respond { status := 500, success := false, error := some "Authentication failed" },
          revokedCacheState) :=
  have hcache : RevocationCacheHolds revokedCacheState (bearerToken "Bearer A1") :=
    ⟨"true", by decide, by decide⟩
  ⟨hcache, (revoked_token_answered_500 demoEnv revokedCacheState "Bearer A1" (by decide)
    hcache).2⟩

/-! ### C10: a retired session -/

/-- C10, the code at the failing input. A `logout` whose request carries an unrevoked
document of a stored session saves the session revoked, writes no cache entry
(`redis.setex` throws) and is answered 500 'Logout failed'. In every later state a request
bearing a token, that of the retired session included, is answered
500 'Authentication failed': it is not let through, and it is answered neither
401 'Token has been revoked' nor 401 'Invalid or expired session'. -/
theorem retired_session_answered_500 (env : Env) (s0 : State) (x : Session)
    (events : List Event) (authorization : String)
    (hstored : ∃ u ∈ s0.sessions, u._id = x._id) (hactive : x.isRevoked = false)
    (hbearer : jsStartsWith authorization "Bearer " = true) :
    (AuthController.logout s0 (some x)).1
      = { status := 500, success := false, error := some "Logout failed" } ∧
    (∃ y ∈ (AuthController.logout s0 (some x)).2.sessions,
      y._id = x._id ∧ y.isRevoked = true) ∧
    (AuthController.logout s0 (some x)).2.redis = s0.redis ∧
    AuthMiddleware.verifyToken env (run env (AuthController.logout s0 (some x)).2 events)
        (some authorization)
      = (.respond { status := 500, success := false, error := some "Authentication failed" },
          run env (AuthController.logout s0 (some x)).2 events) := by
  have hne : authorization ≠ "" := by
    intro h0
    rw [h0] at hbearer
    exact absurd hbearer (by decide)
  obtain ⟨sessions1, hsave, hy⟩ := saveRevoked_revokes s0.sessions x s0.now hstored hactive
  have hlog : AuthController.logout s0 (some x)
      = ({ status := 500, success := false, error := some "Logout failed" },
          { s0 with sessions := sessions1 }) := by
    rw [logout_answer]
    simp only [hsave]
  refine ⟨by rw [hlog], by rw [hlog]; exact hy, by rw [hlog], ?_⟩
  rw [verifyToken_answer]
  simp [falsyString, hne, hbearer]

/-- The session of user A is retired by `logout`; an hour later, its cache entry being
absent, a request bears its access token `A1`. -/
theorem retired_session_answered_500_witness :
    (AuthController.logout demoState (some demoSession)).2.sessions
      = [{ demoSession with isRevoked := true, revokedAt := some 1000 }] ∧
    AuthMiddleware.verifyToken demoEnv
        (run demoEnv (AuthController.logout demoState (some demoSession)).2 [.tick 3600000])
        (some "Bearer A1")
      = (.respond { status := 500, success := false, error := some "Authentication failed" },
          run demoEnv (AuthController.logout demoState (some demoSession)).2
            [.tick 3600000]) :=
  ⟨by decide,
    (retired_session_answered_500 demoEnv demoState demoSession [.tick 3600000] "Bearer A1"
      ⟨demoSession, by decide, rfl⟩ (by decide) (by decide)).2.2.2⟩


/-! ### C11: revoked is terminal -/

/-- C11. Along every sequence of `register`, `login`, `refreshToken`, `logout` and
`verifyToken` calls (and of the other events: writes to users, the clock, TTL deletion,
cache loss), a session whose `isRevoked` flag is true never has `isRevoked = false` again:
if every stored session with a given `_id` is revoked, then so is every stored session
with that `_id` in every later state. -/
theorem revoked_is_terminal (env : Env) (s : State) (id : String) (events : List Event)
    (h : ∀ x ∈ s.sessions, x._id = id → x.isRevoked = true) :
    ∀ x ∈ (run env s events).sessions, x._id = id → x.isRevoked = true := by
  have hm : Marked (fun x => decide (x._id = id)) s.sessions := by
    intro x hx hs
    exact h x hx (by simpa using hs)
  intro x hx hid
  exact marked_run env _ (tokenSelector_id id) s events hm x hx (by simpa using hid)

/-- The session retired by `logout`, followed through a login, a registration, a refresh
with its own refresh token, a request with its access token and a second logout. -/
theorem revoked_is_terminal_witness :
    (∀ x ∈ (AuthController.logout demoState (some demoSession)).2.sessions,
      x._id = "s1" → x.isRevoked = true) ∧
    ∀ x ∈ (run demoEnv (AuthController.logout demoState (some demoSession)).2
        [.login { username := "alice", password := "" } "s2",
         .register newcomer "dddddddddddddddddddddddd" "ABCD1234" "s3",
         .refreshToken (some "R1") "s4",
         .cacheLoss ["token:revoked:A1"],
         .verifyToken (some "Bearer A1"),
         .logout (some demoSession)]).sessions,
      x._id = "s1" → x.isRevoked = true :=
  ⟨by decide, revoked_is_terminal demoEnv _ "s1" _ (by decide)⟩

/-! ### C12: classification of a refresh token that fails verification -/

/-- C12, the code at the failing input. When `jwt.verify` rejects the refresh token with a
`JsonWebTokenError` (malformed or badly signed), `refreshToken` answers with the generic
500 'Token refresh failed', the answer it gives to any exception other than
`TokenExpiredError`; only the expired token has an answer of its own, 401 'Refresh token
expired'. The `catch` block of `verifyToken` does distinguish `JsonWebTokenError`
(401 'Invalid token'). -/
theorem refreshToken_invalid_token_generic (env : Env) (s : State) (token newId : String)
    (e : JsError) (hne : token ≠ "")
    (hverify : env.jwtVerify token env.JWT_REFRESH_SECRET s.now = .error e) :
    (e = .jsonWebTokenError →
      AuthController.refreshToken env s (some token) newId
        = ({ status := 500, success := false, error := some "Token refresh failed" }, none, s)) ∧
    (e.name ≠ "TokenExpiredError" →
      AuthController.refreshToken env s (some token) newId
        = ({ status := 500, success := false, error := some "Token refresh failed" }, none, s)) ∧
    (e = .tokenExpiredError →
      AuthController.refreshToken env s (some token) newId
        = ({ status := 401, success := false, error := some "Refresh token expired" }, none, s)) ∧
    AuthMiddleware.verifyTokenCatch .jsonWebTokenError
      = { status := 401, success := false, error := some "Invalid token",
          code := some "INVALID_TOKEN" } := by
  have hfalsy : falsyString (some token) = false := by simp [falsyString, hne]
  have hcall : AuthController.refreshToken env s (some token) newId
      = (AuthController.refreshTokenCatch e, none, s) := by
    unfold AuthController.refreshToken
    simp only [hfalsy, Option.getD_some, hverify]
    simp
  refine ⟨?_, ?_, ?_, by decide⟩
  · intro he
    rw [hcall, he]
    rfl
  · intro hname
    rw [hcall]
    unfold AuthController.refreshTokenCatch
    rw [if_neg hname]
  · intro he
    rw [hcall, he]
    rfl

/-- The malformed value `garbage` presented as a refresh token. -/
theorem refreshToken_invalid_token_generic_witness :
    AuthController.refreshToken demoEnv demoState (some "garbage") "s2"
      = ({ status := 500, success := false, error := some "Token refresh failed" }, none,
          demoState) :=
  (refreshToken_invalid_token_generic demoEnv demoState "garbage" "s2" .jsonWebTokenError
    (by decide) rfl).1 rfl

/-! ### C13: the lifetime of cache entries -/

/-- C13, the code at the failing input. `refreshToken` and `logout` write no entry to the
revocation cache, for any request and in any state: each reaches `redis.setex`
only after `session.save()`, the call throws a `TypeError` on the `null` binding, and the
handler answers 500. The time to live both pass to `redis.setex` is the constant 3600. -/
theorem revocation_cache_never_written (env : Env) (s : State) (token : Option String)
    (newId : String) (session : Option Session) (key : String) :
    (AuthController.refreshToken env s token newId).2.2.redis = s.redis ∧
    (AuthController.refreshToken env s token newId).1.success = false ∧
    (AuthController.logout s session).2.redis = s.redis ∧
    (AuthController.logout s session).1
      = { status := 500, success := false, error := some "Logout failed" } ∧
    redisClientSetex s.redis s.now key 3600 "true" = .error .typeError := by
  refine ⟨(refreshToken_never_succeeds env s token newId).2.2.1,
    (refreshToken_never_succeeds env s token newId).1, ?_, ?_, rfl⟩
  · rw [logout_answer]
    cases session with
    | none => rfl
    | some x =>
      dsimp only
      cases saveRevoked s.sessions x s.now <;> rfl
  · rw [logout_answer]


/-! ### C14: login -/

/-- C14, the code at the failing input. An active user presenting matching credentials,
with no application id or the id of an active application, is answered
500 'Login failed': the login statistics are written, then `generateTokens` throws; no
token pair is returned and no session is stored. -/
theorem login_matching_credentials_fails (env : Env) (s : State) (body : LoginBody)
    (user : User) (newSessionId : String)
    (hfound : findByLogin env s.users body.username = some user)
    (hpassword : env.bcryptCompare body.password user.password = true)
    (hactive : user.isActive = true)
    (happ : falsyString body.applicationId = true ∨
      ∃ app, Application.findById env s.applications body.applicationId = .ok (some app) ∧
        app.isActive = true) :
    (AuthController.login env s body newSessionId).1
      = { status := 500, success := false, error := some "Login failed" } ∧
    (AuthController.login env s body newSessionId).2.1 = none ∧
    (AuthController.login env s body newSessionId).2.2.sessions = s.sessions ∧
    (AuthController.login env s body newSessionId).2.2.users
      = updateOne s.users user._id (recordLogin user s.now) := by
  have hlookup : ∃ found, Application.findById env s.applications body.applicationId
        = .ok found ∧
      (!falsyString body.applicationId && !((found.map (·.isActive)).getD false)) = false := by
    rcases happ with h | ⟨app, h1, h2⟩
    · refine ⟨none, ?_, by simp [h]⟩
      unfold Application.findById
      rw [if_pos h]
    · exact ⟨some app, h1, by simp [h2]⟩
  obtain ⟨found, hfind, hcheck⟩ := hlookup
  obtain ⟨e, he⟩ := generateTokens_throws env
    { s with users := updateOne s.users user._id (recordLogin user s.now) }
    (recordLogin user s.now user) found newSessionId
  unfold AuthController.login
  simp only [hfound, hpassword, hactive, Bool.not_true, Bool.false_eq_true, if_false, hfind,
    hcheck, he]
  simp

/-- R logs in with her user name and her password. -/
theorem login_matching_credentials_fails_witness :
    (AuthController.login demoEnv ritaState
        { username := "rita", password := "correct horse" } "s9").1
      = { status := 500, success := false, error := some "Login failed" } ∧
    (AuthController.login demoEnv ritaState
        { username := "rita", password := "correct horse" } "s9").2.2.sessions = [] :=
  have h := login_matching_credentials_fails demoEnv ritaState
    { username := "rita", password := "correct horse" } rita "s9"
    (by decide) (by decide) (by decide) (Or.inl (by decide))
  ⟨h.1, h.2.2.1⟩

/-! ### C15: the referral edge of a registration -/

theorem findById_append (users : List User) (u : User) (id : String) :
    findById (users ++ [u]) id =
      (findById users id).or (if u._id = id then some u else none) := by
  unfold findById
  rw [List.find?_append]
  cases h : List.find? (fun u => decide (u._id = id)) users with
  | some v => simp
  | none =>
    by_cases hu : u._id = id <;> simp [List.find?_cons, hu]

theorem findById_none_of_not_any (users : List User) (id : String)
    (h : users.any (fun v => decide (v._id = id)) = false) : findById users id = none := by
  unfold findById
  rw [List.find?_eq_none]
  intro x hx hp
  have : users.any (fun v => decide (v._id = id)) = true := List.any_eq_true.2 ⟨x, hx, hp⟩
  rw [h] at this
  cases this

theorem saveNewUser_ok (env : Env) (users users2 : List User) (u saved : User)
    (h : saveNewUser env users u = .ok (users2, saved)) :
    validateUser env u = true ∧ saved = { u with password := env.bcryptHash u.password } ∧
    users2 = users ++ [saved] ∧ findById users u._id = none := by
  unfold saveNewUser at h
  split at h
  · cases h
  · rename_i hv
    dsimp only at h
    split at h
    · cases h
    · rename_i users1 hins
      injection h with h
      injection h with h1 h2
      unfold insertUser at hins
      split at hins
      · cases hins
      · rename_i hid
        have hnone : findById users u._id = none :=
          findById_none_of_not_any users u._id (by simpa using hid)
        split at hins
        · cases hins
        · split at hins
          · cases hins
          · split at hins
            · cases hins
            · injection hins with hins
              refine ⟨by simpa using hv, h2.symm, ?_, hnone⟩
              rw [← h1, ← hins, ← h2]

@[simp] theorem pushReferral_id (userId : String) (now : Nat) (u : User) :
    (pushReferral userId now u)._id = u._id := rfl

/-- What `register` has written when the new user was persisted with the affiliate code of
the stored user `r`: the collection is the old one with the edge pushed onto `r`, followed
by the new user; the call is then answered by the `catch` block. -/
theorem register_referred (env : Env) (s : State) (body : RegisterBody)
    (newUserId code newSessionId affiliateCode : String) (r : User)
    (users2 : List User) (saved : User)
    (hnew : findByUsernameOrEmail env s.users body.username body.email = none)
    (hcode : body.affiliateCode = some affiliateCode) (hne : affiliateCode ≠ "")
    (hreferrer : findByAffiliateCode s.users affiliateCode = some r)
    (hsave : saveNewUser env (updateOne s.users r._id (pushReferral newUserId s.now))
      (generateAffiliateCode env (referTo (newUser env body newUserId) r) code)
      = .ok (users2, saved)) :
    ∃ e, AuthController.register env s body newUserId code newSessionId
      = (AuthController.registerCatch e, none, { s with users := users2 }) := by
  have hfalsy : falsyString (some affiliateCode) = false := by simp [falsyString, hne]
  obtain ⟨e, he⟩ := generateTokens_throws env { s with users := users2 } saved none newSessionId
  refine ⟨e, ?_⟩
  have hid : (newUser env body newUserId)._id = newUserId := rfl
  unfold AuthController.register
  simp only [hnew, hcode, hfalsy, Option.getD_some, hreferrer, Bool.false_eq_true, if_false,
    hid, hsave, he]

/-- C15. Let a registration supply the affiliate code of the stored user R and go through:
no stored user has the name or the email, the referrer is saved and the new user document
is saved. Then the new user is stored with `referredBy` = R, R's referrals have grown by
exactly one entry, which references the new user, and every other user's referrals are
unchanged. (The answer the handler gives afterwards is the subject of C14.) -/
theorem register_referral_edge (env : Env) (s : State) (body : RegisterBody)
    (newUserId code newSessionId affiliateCode : String) (r : User)
    (users2 : List User) (saved : User)
    (hnew : findByUsernameOrEmail env s.users body.username body.email = none)
    (hcode : body.affiliateCode = some affiliateCode) (hne : affiliateCode ≠ "")
    (hreferrer : findByAffiliateCode s.users affiliateCode = some r)
    (hstored : findById s.users r._id = some r)
    (hsave : saveNewUser env (updateOne s.users r._id (pushReferral newUserId s.now))
      (generateAffiliateCode env (referTo (newUser env body newUserId) r) code)
      = .ok (users2, saved)) :
    (findById (AuthController.register env s body newUserId code newSessionId).2.2.users
        newUserId = some saved ∧ saved.referredBy = some r._id) ∧
    (findById (AuthController.register env s body newUserId code newSessionId).2.2.users r._id
      = some { r with referrals := r.referrals ++ [{ userId := newUserId, joinedAt := s.now }] }) ∧
    (∀ id u, id ≠ r._id → findById s.users id = some u →
      ∃ u1, findById (AuthController.register env s body newUserId code newSessionId).2.2.users
        id = some u1 ∧ u1.referrals = u.referrals) := by
  obtain ⟨e, he⟩ := register_referred env s body newUserId code newSessionId affiliateCode r
    users2 saved hnew hcode hne hreferrer hsave
  obtain ⟨-, hsaved, husers2, hfresh⟩ := saveNewUser_ok env _ _ _ _ hsave
  have hsid : saved._id = newUserId := by rw [hsaved]; rfl
  have hfresh' : findById (updateOne s.users r._id (pushReferral newUserId s.now)) newUserId
      = none := hfresh
  rw [he]
  refine ⟨⟨?_, ?_⟩, ?_, ?_⟩
  · show findById users2 newUserId = some saved
    rw [husers2, findById_append, hfresh', if_pos hsid]
    rfl
  · rw [hsaved]; rfl
  · show findById users2 r._id = _
    rw [husers2, findById_append, findById_updateOne _ _ _ _ (pushReferral_id newUserId s.now),
      if_pos rfl, hstored]
    rfl
  · intro id u hid hu
    refine ⟨u, ?_, rfl⟩
    show findById users2 id = some u
    rw [husers2, findById_append, findById_updateOne _ _ _ _ (pushReferral_id newUserId s.now),
      if_neg hid, hu]
    rfl

/-- The newcomer registers with R's affiliate code, next to user A: the newcomer is stored
as referred by R, R has one referral, the newcomer, and A has none. -/
theorem register_referral_edge_witness :
    ((findById (AuthController.register demoEnv { ritaState with users := [rita, alice] }
        newcomer "dddddddddddddddddddddddd" "ABCD1234" "s9").2.2.users
        "dddddddddddddddddddddddd").map (·.referredBy)) = some (some rita._id) ∧
    findById (AuthController.register demoEnv { ritaState with users := [rita, alice] }
        newcomer "dddddddddddddddddddddddd" "ABCD1234" "s9").2.2.users rita._id
      = some { rita with
          referrals := [{ userId := "dddddddddddddddddddddddd", joinedAt := 5000 }] } ∧
    ((findById (AuthController.register demoEnv { ritaState with users := [rita, alice] }
        newcomer "dddddddddddddddddddddddd" "ABCD1234" "s9").2.2.users alice._id).map
        (·.referrals)) = some [] := by
  have h := register_referral_edge demoEnv { ritaState with users := [rita, alice] } newcomer
    "dddddddddddddddddddddddd" "ABCD1234" "s9" "RITK3V9QX2M" rita _ _
    (by decide) rfl (by decide) (by decide) (by decide) rfl
  refine ⟨?_, h.2.1, ?_⟩
  · rw [h.1.1]; rfl
  · obtain ⟨u1, hu1, hr⟩ := h.2.2 alice._id alice (by decide) (by decide)
    rw [hu1]
    exact congrArg some hr


/-! ### C16: commission totals -/

theorem foldl_commission_none (l : List Referral)
    (h : ∀ r ∈ l, r.commissionEarned = none) :
    l.foldl (fun sum ref => jsAdd sum (ref.commissionEarned.getD 0)) 0 = 0 := by
  induction l with
  | nil => rfl
  | cons r rest ih =>
    rw [List.foldl_cons, h r (List.mem_cons_self _ _)]
    have h0 : jsAdd 0 ((none : Option Int).getD 0) = 0 := by decide
    rw [h0]
    exact ih fun x hx => h x (List.mem_cons_of_mem _ hx)

theorem totalCommissionEarned_zero (users : List User) (h : NoCommissionEarned users) :
    ∀ u ∈ users, totalCommissionEarned u = 0 := by
  intro u hu
  unfold totalCommissionEarned
  exact foldl_commission_none _ (h u hu)

theorem saveCreditPush_referrals (users users1 : List User) (l : User) (n : Int)
    (e : CreditEntry) (h : saveCreditPush users l n e = .ok users1) :
    ∀ v ∈ users1, ∃ u ∈ users, v.referrals = u.referrals := by
  obtain ⟨rfl, -, -, -⟩ := saveCreditPush_ok _ _ _ _ _ h
  intro v hv
  rcases mem_updateOne _ _ _ _ hv with h1 | ⟨u, hu, rfl⟩
  · exact ⟨v, h1, rfl⟩
  · exact ⟨u, hu, rfl⟩

/-- A ledger operation writes `credit` and `creditHistory` only: every stored document
keeps the referrals of a document stored before. -/
theorem ledgerOp_referrals (env : Env) (users : List User) (op : LedgerOp) :
    ∀ v ∈ op.apply env users, ∃ u ∈ users, v.referrals = u.referrals := by
  have hrefl : ∀ v ∈ users, ∃ u ∈ users, v.referrals = u.referrals :=
    fun v hv => ⟨v, hv, rfl⟩
  cases op with
  | addCredit self amount type description metadata ref now =>
    simp only [LedgerOp.apply]
    unfold addCredit
    dsimp only
    split
    · rename_i users1 hs
      exact saveCreditPush_referrals _ _ _ _ _ hs
    · exact hrefl
  | transferCredit self toUserId amount description ref1 ref2 now =>
    simp only [LedgerOp.apply]
    unfold transferCredit
    split
    · rename_i result committed hr
      dsimp only
      unfold transferCreditTry at hr
      split at hr
      · cases hr
      · dsimp only at hr
        split at hr
        · cases hr
        · rename_i tx1 hs1
          split at hr
          · cases hr
          · cases hr
          · split at hr
            · cases hr
            · rename_i tx2 hs2
              injection hr with hr
              injection hr with _ hr
              rw [← hr]
              intro v hv
              obtain ⟨w, hw, hvw⟩ := saveCreditPush_referrals _ _ _ _ _ hs2 v hv
              obtain ⟨u, hu, hwu⟩ := saveCreditPush_referrals _ _ _ _ _ hs1 w hw
              exact ⟨u, hu, hvw.trans hwu⟩
    · exact hrefl

/-- The user collection `register` leaves: the old one, possibly with one referral edge
pushed onto one user, possibly followed by the new user, whose `_id` was not taken and
who has no referral, no credit and no history. -/
theorem register_users (env : Env) (s : State) (body : RegisterBody)
    (newUserId code newSessionId : String) :
    ∃ users1,
      (users1 = s.users ∨
        ∃ r : User, users1 = updateOne s.users r._id (pushReferral newUserId s.now)) ∧
      ((AuthController.register env s body newUserId code newSessionId).2.2.users = users1 ∨
        ∃ saved, (AuthController.register env s body newUserId code newSessionId).2.2.users
            = users1 ++ [saved] ∧
          saved.referrals = [] ∧ saved.credit = 0 ∧ saved.creditHistory = [] ∧
          saved._id = newUserId ∧ findById users1 newUserId = none) := by
  unfold AuthController.register
  split
  · exact ⟨s.users, Or.inl rfl, Or.inl rfl⟩
  · dsimp only
    cases hr : (if falsyString body.affiliateCode then none
        else findByAffiliateCode s.users (body.affiliateCode.getD "")) with
    | none =>
      refine ⟨s.users, Or.inl rfl, ?_⟩
      dsimp only
      split
      · exact Or.inl rfl
      · rename_i users2 saved hs
        obtain ⟨-, hsaved, husers2, hfresh⟩ := saveNewUser_ok env _ _ _ _ hs
        split
        · refine Or.inr ⟨saved, ?_, ?_, ?_, ?_, ?_, hfresh⟩
          · exact husers2
          all_goals rw [hsaved]; rfl
        · rename_i hg
          exact absurd hg (generateTokens_ne_ok _ _ _ _ _ _)
    | some r =>
      refine ⟨updateOne s.users r._id (pushReferral newUserId s.now), Or.inr ⟨r, rfl⟩, ?_⟩
      dsimp only
      split
      · exact Or.inl rfl
      · rename_i users2 saved hs
        obtain ⟨-, hsaved, husers2, hfresh⟩ := saveNewUser_ok env _ _ _ _ hs
        split
        · refine Or.inr ⟨saved, ?_, ?_, ?_, ?_, ?_, hfresh⟩
          · exact husers2
          all_goals rw [hsaved]; rfl
        · rename_i hg
          exact absurd hg (generateTokens_ne_ok _ _ _ _ _ _)

theorem noCommissionEarned_step (env : Env) (s : State) (op : RegLedgerOp)
    (h : NoCommissionEarned s.users) : NoCommissionEarned (op.apply env s).users := by
  cases op with
  | ledger op =>
    intro v hv r hr
    obtain ⟨u, hu, hvu⟩ := ledgerOp_referrals env s.users op v hv
    rw [hvu] at hr
    exact h u hu r hr
  | register body newUserId code newSessionId =>
    obtain ⟨users1, h1, h2⟩ := register_users env s body newUserId code newSessionId
    have hn1 : NoCommissionEarned users1 := by
      rcases h1 with rfl | ⟨r, rfl⟩
      · exact h
      · intro v hv e he
        rcases mem_updateOne _ _ _ _ hv with hv1 | ⟨u, hu, rfl⟩
        · exact h v hv1 e he
        · unfold pushReferral at he
          rcases List.mem_append.1 he with he1 | he1
          · exact h u hu e he1
          · rw [List.mem_singleton.1 he1]
    simp only [RegLedgerOp.apply]
    rcases h2 with h2 | ⟨saved, h2, hsaved, -⟩
    · rw [h2]; exact hn1
    · rw [h2]
      intro v hv e he
      rcases List.mem_append.1 hv with hv1 | hv1
      · exact hn1 v hv1 e he
      · rw [List.mem_singleton.1 hv1, hsaved] at he
        cases he

/-- C16 fails as stated. R has no referral edge and no commission entry (both sums are
0); one ledger operation, `addCredit(5, 'commission')`, later the commission entries of
her history sum to 5 while her referral edges still sum to 0. -/
theorem commission_totals_diverge :
    totalCommissionEarned rita = commissionHistoryTotal rita ∧
    (findById (runRegLedger demoEnv ritaState
        [.ledger (.addCredit rita 5 "commission" "referral bonus" none "r0" 6000)]).users
        rita._id).map
      (fun u => (u.credit, totalCommissionEarned u, commissionHistoryTotal u))
      = some (5, 0, 5) :=
  ⟨by decide, by decide⟩

/-- C16 (amended). No registration and no ledger operation writes `commissionEarned`: in
every state reachable through them from a store in which no referral edge carries a
`commissionEarned` value, no edge carries one and every user's sum of `commissionEarned`
(a missing value counted as 0) is 0; it equals the sum of the user's `commission` entries
exactly when those amounts sum to 0. -/
theorem commission_earned_never_written (env : Env) (s : State) (ops : List RegLedgerOp)
    (h : NoCommissionEarned s.users) :
    NoCommissionEarned (runRegLedger env s ops).users ∧
    ∀ u ∈ (runRegLedger env s ops).users,
      totalCommissionEarned u = 0 ∧
      (totalCommissionEarned u = commissionHistoryTotal u ↔ commissionHistoryTotal u = 0) := by
  have hinv : NoCommissionEarned (runRegLedger env s ops).users := by
    unfold runRegLedger
    induction ops generalizing s with
    | nil => exact h
    | cons op rest ih =>
      rw [List.foldl_cons]
      exact ih _ (noCommissionEarned_step env s op h)
  refine ⟨hinv, ?_⟩
  intro u hu
  have h0 := totalCommissionEarned_zero _ hinv u hu
  refine ⟨h0, ?_⟩
  rw [h0]
  exact eq_comm

/-- The newcomer registers with R's code, then a commission of 5 is posted to R. -/
theorem commission_earned_never_written_witness :
    NoCommissionEarned ritaState.users ∧
    ∀ u ∈ (runRegLedger demoEnv ritaState
        [.register newcomer "dddddddddddddddddddddddd" "ABCD1234" "s9",
         .ledger (.addCredit rita 5 "commission" "referral bonus" none "r0" 6000)]).users,
      totalCommissionEarned u = 0 ∧
      (totalCommissionEarned u = commissionHistoryTotal u ↔ commissionHistoryTotal u = 0) :=
  ⟨by decide, (commission_earned_never_written demoEnv ritaState _ (by decide)).2⟩

/-! ### C17: the history is appended to -/

/-- C17 fails as stated. In the transfer of 40 from A to A itself two entries, not one,
are appended to the sender's history. -/
theorem self_transfer_appends_two :
    (transferCredit demoEnv [alice, bob] alice alice._id 40 "" "r1" "r2" 7).1
      = .ok { success := true, transactionId := "r1", newBalance := 60 } ∧
    (historyOf [alice, bob] alice._id).map List.length = some 0 ∧
    (historyOf (transferCredit demoEnv [alice, bob] alice alice._id 40 "" "r1" "r2" 7).2
        alice._id).map List.length
      = some 2 :=
  ⟨rfl, by decide, by decide⟩

/-- C17 (amended). A successful `User.transferCredit` of `amt` between distinct users
appends exactly one entry to the sender's credit history (kind `transfer_sent`, amount
`-amt`) and exactly one entry to the recipient's (kind `transfer_received`, amount
`amt`); when the recipient is the sender, the two entries are appended, in that order, to
the one history. In both cases every entry present before the call is still present,
unchanged and in the same order, in front of the new ones. The recipient is the user whose
id the request string `b` is cast to. -/
theorem transfer_appends (env : Env) (users : List User) (sender recipient : User)
    (b rid : String) (amt : Int) (description ref1 ref2 : String) (now : Nat)
    (result : TransferResult) (users1 : List User)
    (hsender : findById users sender._id = some sender)
    (hcast : env.castObjectId b = some rid)
    (hrecipient : findById users rid = some recipient)
    (hok : transferCredit env users sender b amt description ref1 ref2 now
      = (.ok result, users1)) :
    (sentEntry b amt description ref1 now).type = "transfer_sent" ∧
    (sentEntry b amt description ref1 now).amount = -amt ∧
    (receivedEntry sender._id amt description ref2 now).type = "transfer_received" ∧
    (receivedEntry sender._id amt description ref2 now).amount = amt ∧
    (rid ≠ sender._id →
      historyOf users1 sender._id
        = some (sender.creditHistory ++ [sentEntry b amt description ref1 now]) ∧
      historyOf users1 rid
        = some (recipient.creditHistory ++
            [receivedEntry sender._id amt description ref2 now])) ∧
    (rid = sender._id →
      historyOf users1 sender._id
        = some (sender.creditHistory ++ [sentEntry b amt description ref1 now,
            receivedEntry sender._id amt description ref2 now])) := by
  obtain ⟨-, hne, heq⟩ :=
    transferCredit_effect _ _ _ _ _ _ _ _ _ _ _ _ _ hsender hcast hrecipient hok
  refine ⟨rfl, rfl, rfl, rfl, ?_, ?_⟩
  · intro hb
    unfold historyOf
    rw [(hne hb).1, (hne hb).2]
    exact ⟨rfl, rfl⟩
  · intro hb
    have h2 := heq hb
    unfold historyOf
    rw [← hb, h2]
    simp [hb]

/-- The scenario transfer: one entry more in each history. -/
theorem transfer_appends_witness :
    historyOf (transferCredit demoEnv [alice, bob] alice bob._id 40 "gift" "r1" "r2" 7).2
        alice._id
      = some (alice.creditHistory ++ [sentEntry bob._id 40 "gift" "r1" 7]) ∧
    historyOf (transferCredit demoEnv [alice, bob] alice bob._id 40 "gift" "r1" "r2" 7).2
        bob._id
      = some (bob.creditHistory ++ [receivedEntry alice._id 40 "gift" "r2" 7]) :=
  (transfer_appends demoEnv [alice, bob] alice bob bob._id bob._id 40 "gift" "r1" "r2" 7
    { success := true, transactionId := "r1", newBalance := 60 }
    (transferCredit demoEnv [alice, bob] alice bob._id 40 "gift" "r1" "r2" 7).2
    (by decide) (by decide) (by decide) rfl).2.2.2.2.1 (by decide)


/-! ### C18: who writes credit -/

theorem ledgerFrame_refl (users : List User) : LedgerFrame users users :=
  fun _ u h => ⟨u, h, rfl, rfl⟩

theorem ledgerFrame_trans (a b c : List User) (hab : LedgerFrame a b) (hbc : LedgerFrame b c) :
    LedgerFrame a c := by
  intro id u hu
  obtain ⟨v, hv, h1, h2⟩ := hab id u hu
  obtain ⟨w, hw, h3, h4⟩ := hbc id v hv
  exact ⟨w, hw, h3.trans h1, h4.trans h2⟩

theorem ledgerFrame_updateOne (users : List User) (id : String) (f : User → User)
    (hf : ∀ u, (f u)._id = u._id ∧ (f u).credit = u.credit ∧
      (f u).creditHistory = u.creditHistory) :
    LedgerFrame users (updateOne users id f) := by
  intro id' u hu
  rw [findById_updateOne _ _ _ _ (fun v => (hf v).1)]
  by_cases h : id' = id
  · rw [if_pos h, ← h, hu]
    exact ⟨f u, rfl, (hf u).2.1, (hf u).2.2⟩
  · rw [if_neg h]
    exact ⟨u, hu, rfl, rfl⟩

theorem ledgerFrame_append (users : List User) (v : User) : LedgerFrame users (users ++ [v]) := by
  intro id u hu
  rw [findById_append, hu]
  exact ⟨u, rfl, rfl, rfl⟩

theorem register_frame (env : Env) (s : State) (body : RegisterBody)
    (newUserId code newSessionId : String) :
    LedgerFrame s.users
      (AuthController.register env s body newUserId code newSessionId).2.2.users := by
  obtain ⟨users1, h1, h2⟩ := register_users env s body newUserId code newSessionId
  have hf1 : LedgerFrame s.users users1 := by
    rcases h1 with rfl | ⟨r, rfl⟩
    · exact ledgerFrame_refl _
    · exact ledgerFrame_updateOne _ _ _ fun u => ⟨rfl, rfl, rfl⟩
  rcases h2 with h2 | ⟨saved, h2, -⟩
  · rw [h2]; exact hf1
  · rw [h2]; exact ledgerFrame_trans _ _ _ hf1 (ledgerFrame_append _ _)

theorem login_frame (env : Env) (s : State) (body : LoginBody) (newSessionId : String) :
    LedgerFrame s.users (AuthController.login env s body newSessionId).2.2.users := by
  have hupd : ∀ user : User,
      LedgerFrame s.users (updateOne s.users user._id (recordLogin user s.now)) :=
    fun user => ledgerFrame_updateOne _ _ _ fun u => ⟨rfl, rfl, rfl⟩
  unfold AuthController.login
  split
  · exact ledgerFrame_refl _
  · split
    · exact ledgerFrame_refl _
    · split
      · exact ledgerFrame_refl _
      · dsimp only
        repeat' split
        all_goals first
          | exact ledgerFrame_refl _
          | exact hupd _
          | (rename_i hg; exact absurd hg (generateTokens_ne_ok _ _ _ _ _ _))

theorem refreshToken_users (env : Env) (s : State) (token : Option String) (newId : String) :
    (AuthController.refreshToken env s token newId).2.2.users = s.users :=
  (refreshToken_never_succeeds env s token newId).2.2.2.1

theorem logout_users (s : State) (session : Option Session) :
    (AuthController.logout s session).2.users = s.users := by
  rw [logout_answer]
  cases session with
  | none => rfl
  | some x =>
    dsimp only
    cases saveRevoked s.sessions x s.now <;> rfl

theorem verifyToken_users (env : Env) (s : State) (authorization : Option String) :
    (AuthMiddleware.verifyToken env s authorization).2.users = s.users := by
  rw [verifyToken_answer]

theorem findByIdAndUpdate_users (env : Env) (users users1 : List User) (id : String)
    (upd : UserUpdate) (r : Option User)
    (h : findByIdAndUpdate env users id upd = .ok (r, users1)) :
    users1 = users ∨ users1 = updateOne users id (applyUpdate env upd) := by
  unfold findByIdAndUpdate at h
  split at h
  · cases h
  · split at h
    · injection h with h
      injection h with _ h2
      exact Or.inl h2.symm
    · dsimp only at h
      repeat' split at h
      all_goals first
        | (injection h with h; injection h with _ h2; exact Or.inr h2.symm)
        | cases h

theorem updateProfile_frame (env : Env) (users : List User) (userId : String)
    (updates : UserUpdate) :
    LedgerFrame users (UserController.updateProfile env users userId updates).2.2 := by
  unfold UserController.updateProfile
  split
  · rename_i user users1 hq
    rcases findByIdAndUpdate_users env users users1 userId _ user hq with h | h
    · rw [h]; exact ledgerFrame_refl _
    · rw [h]
      exact ledgerFrame_updateOne _ _ _ fun u => ⟨rfl, rfl, rfl⟩
  · exact ledgerFrame_refl _

theorem changePassword_frame (env : Env) (users : List User) (userId : String)
    (currentPassword newPassword : String) :
    LedgerFrame users
      (UserController.changePassword env users userId currentPassword newPassword).2 := by
  unfold UserController.changePassword
  repeat' split
  all_goals first
    | exact ledgerFrame_refl _
    | exact ledgerFrame_updateOne _ _ _ fun u => ⟨rfl, rfl, rfl⟩

/-- The route `PATCH /users/:id` never reaches its callback: `verifyToken`, the first
middleware of the router, answers every request itself, and the store is left as it is. -/
theorem patchUser_answer (env : Env) (s : State) (authorization : Option String)
    (id : String) (updates : UserUpdate) :
    AdminRoutes.patchUser env s authorization id updates =
      (if falsyString authorization || !jsStartsWith (authorization.getD "") "Bearer " then
          { status := 401, success := false, error := some "Access token required" }
        else
          { status := 500, success := false, error := some "Authentication failed" },
        none, s) := by
  unfold AdminRoutes.patchUser
  rw [verifyToken_answer]

/-- The callback of `PATCH /users/:id`, taken alone, writes whatever paths the body names:
called on A's id with the body `{ credit: 5000, creditHistory: [] }` it stores the
credit 5000. -/
theorem patchUserHandler_writes_credit :
    creditOf [alice, bob] alice._id = some 100 ∧
    (AdminRoutes.patchUserHandler demoEnv [alice, bob] alice._id
        { credit := some 5000, creditHistory := some [] }).1
      = { success := true, message := some "User updated successfully" } ∧
    creditOf (AdminRoutes.patchUserHandler demoEnv [alice, bob] alice._id
        { credit := some 5000, creditHistory := some [] }).2.2 alice._id = some 5000 :=
  ⟨by decide, by decide, by decide⟩

/-- C18. No operation other than the ledger operations changes an existing user's credit
or credit history: `register`, `login`, `refreshToken`, `logout`, `verifyToken`,
`updateProfile`, `changePassword` and the route `PATCH /users/:id` of the administration,
for every request, leave every stored user stored with the same `credit` and the same
`creditHistory`. The administration route leaves the whole store as it is: its router
runs `verifyToken` first, which answers every request itself. -/
theorem handlers_keep_credit (env : Env) (s : State)
    (registerBody : RegisterBody) (newUserId code newSessionId : String)
    (loginBody : LoginBody) (refreshToken authorization : Option String)
    (session : Option Session) (userId : String) (updates : UserUpdate)
    (currentPassword newPassword : String)
    (adminAuthorization : Option String) (id : String) (adminUpdates : UserUpdate) :
    LedgerFrame s.users
      (AuthController.register env s registerBody newUserId code newSessionId).2.2.users ∧
    LedgerFrame s.users (AuthController.login env s loginBody newSessionId).2.2.users ∧
    LedgerFrame s.users
      (AuthController.refreshToken env s refreshToken newSessionId).2.2.users ∧
    LedgerFrame s.users (AuthController.logout s session).2.users ∧
    LedgerFrame s.users (AuthMiddleware.verifyToken env s authorization).2.users ∧
    LedgerFrame s.users (UserController.updateProfile env s.users userId updates).2.2 ∧
    LedgerFrame s.users
      (UserController.changePassword env s.users userId currentPassword newPassword).2 ∧
    LedgerFrame s.users
      (AdminRoutes.patchUser env s adminAuthorization id adminUpdates).2.2.users ∧
    (AdminRoutes.patchUser env s adminAuthorization id adminUpdates).2.2 = s := by
  refine ⟨register_frame _ _ _ _ _ _, login_frame _ _ _ _, ?_, ?_, ?_,
    updateProfile_frame _ _ _ _, changePassword_frame _ _ _ _ _, ?_, ?_⟩
  · rw [refreshToken_users]; exact ledgerFrame_refl _
  · rw [logout_users]; exact ledgerFrame_refl _
  · rw [verifyToken_users]; exact ledgerFrame_refl _
  · rw [patchUser_answer]; exact ledgerFrame_refl _
  · rw [patchUser_answer]

/-- A profile update whose body also names `credit`, and a `PATCH /users/:id` on A's id
with the body `{ credit: 5000, creditHistory: [] }` bearing the access token `A1` of A's
active session: A's credit stays 100. -/
theorem handlers_keep_credit_witness :
    (∃ u1, findById (UserController.updateProfile demoEnv [alice, bob] alice._id
        { credit := some 5000, city := some " Conakry " }).2.2 alice._id = some u1 ∧
      u1.credit = alice.credit ∧ u1.creditHistory = alice.creditHistory) ∧
    creditOf (AdminRoutes.patchUser demoEnv demoState (some "Bearer A1") alice._id
        { credit := some 5000, creditHistory := some [] }).2.2.users alice._id = some 100 := by
  have h := handlers_keep_credit demoEnv demoState newcomer
    "dddddddddddddddddddddddd" "ABCD1234" "s9" { username := "alice", password := "" } none none
    none alice._id { credit := some 5000, city := some " Conakry " } "" ""
    (some "Bearer A1") alice._id { credit := some 5000, creditHistory := some [] }
  refine ⟨h.2.2.2.2.2.1 alice._id alice (by decide), ?_⟩
  rw [h.2.2.2.2.2.2.2.2]
  decide

/-! ### C19: two transfers from one stale read -/

/-- C19, the code at the failing input. A holds 100. Two transfer requests to B, of 60 and
of 70, are handled; each handler loads A (`User.findById(req.user._id)`, credit 100)
before the other's transaction commits, then the two transactions run one after the other
on the documents so loaded. Both pass the balance check against the loaded credit and both
return; the second `save()` overwrites the first debit: A ends with 30 and B with 140,
where the claim requires A to end with 100 - 130 or one transfer to fail. -/
theorem concurrent_transfers_lose_update :
    findById [alice, bob] alice._id = some alice ∧
    (transferCredit demoEnv [alice, bob] alice bob._id 60 "" "r1" "r2" 1).1
      = .ok { success := true, transactionId := "r1", newBalance := 40 } ∧
    (transferCredit demoEnv
        (transferCredit demoEnv [alice, bob] alice bob._id 60 "" "r1" "r2" 1).2
        alice bob._id 70 "" "r3" "r4" 2).1
      = .ok { success := true, transactionId := "r3", newBalance := 30 } ∧
    creditOf (transferCredit demoEnv
        (transferCredit demoEnv [alice, bob] alice bob._id 60 "" "r1" "r2" 1).2
        alice bob._id 70 "" "r3" "r4" 2).2 alice._id = some 30 ∧
    creditOf (transferCredit demoEnv
        (transferCredit demoEnv [alice, bob] alice bob._id 60 "" "r1" "r2" 1).2
        alice bob._id 70 "" "r3" "r4" 2).2 bob._id = some 140 ∧
    (30 : Int) ≠ 100 - (60 + 70) :=
  ⟨by decide, rfl, rfl, by decide, by decide, by decide⟩

/-! ### C20: a failed registration and the referral edge -/

/-- C20, the code at the failing input. `register` saves the referrer before the new
user. When the new user is then refused by `save()` (validation or a unique index), the
request is answered 500 'Registration failed' and the edge stays on the referrer: R's
referrals have grown by an entry that references `newUserId`, an `_id` under which no user
is stored. -/
theorem register_dangling_edge (env : Env) (s : State) (body : RegisterBody)
    (newUserId code newSessionId affiliateCode : String) (r : User) (e : JsError)
    (hnew : findByUsernameOrEmail env s.users body.username body.email = none)
    (hcode : body.affiliateCode = some affiliateCode) (hne : affiliateCode ≠ "")
    (hreferrer : findByAffiliateCode s.users affiliateCode = some r)
    (hstored : findById s.users r._id = some r)
    (hfresh : findById s.users newUserId = none)
    (hsave : saveNewUser env (updateOne s.users r._id (pushReferral newUserId s.now))
      (generateAffiliateCode env (referTo (newUser env body newUserId) r) code) = .error e) :
    AuthController.register env s body newUserId code newSessionId
      = (AuthController.registerCatch e, none,
          { s with users := updateOne s.users r._id (pushReferral newUserId s.now) }) ∧
    findById (updateOne s.users r._id (pushReferral newUserId s.now)) r._id
      = some { r with referrals := r.referrals ++ [{ userId := newUserId, joinedAt := s.now }] } ∧
    findById (updateOne s.users r._id (pushReferral newUserId s.now)) newUserId = none := by
  have hfalsy : falsyString (some affiliateCode) = false := by simp [falsyString, hne]
  have hid : (newUser env body newUserId)._id = newUserId := rfl
  have hneq : newUserId ≠ r._id := by
    intro h
    rw [h, hstored] at hfresh
    cases hfresh
  refine ⟨?_, ?_, ?_⟩
  · unfold AuthController.register
    simp only [hnew, hcode, hfalsy, Option.getD_some, hreferrer, Bool.false_eq_true, if_false,
      hid, hsave]
  · rw [findById_updateOne _ _ _ _ (pushReferral_id newUserId s.now), if_pos rfl, hstored]
    rfl
  · rw [findById_updateOne _ _ _ _ (pushReferral_id newUserId s.now), if_neg hneq, hfresh]

/-- A registration naming R's code whose user name, `al` between blanks, passes the length
check of the route (six characters) and fails the schema's `minlength: 3` once trimmed. -/
theorem register_dangling_edge_witness :
    (AuthController.register demoEnv ritaState { newcomer with username := "  al  " }
        "dddddddddddddddddddddddd" "ABCD1234" "s9").1.status = 500 ∧
    findById (AuthController.register demoEnv ritaState { newcomer with username := "  al  " }
        "dddddddddddddddddddddddd" "ABCD1234" "s9").2.2.users rita._id
      = some { rita with
          referrals := [{ userId := "dddddddddddddddddddddddd", joinedAt := 5000 }] } ∧
    findById (AuthController.register demoEnv ritaState { newcomer with username := "  al  " }
        "dddddddddddddddddddddddd" "ABCD1234" "s9").2.2.users "dddddddddddddddddddddddd"
      = none := by
  have h := register_dangling_edge demoEnv ritaState { newcomer with username := "  al  " }
    "dddddddddddddddddddddddd" "ABCD1234" "s9" "RITK3V9QX2M" rita (.validationError "User")
    (by decide) rfl (by decide) (by decide) (by decide) (by decide) rfl
  rw [h.1]
  exact ⟨rfl, h.2.1, h.2.2⟩


/-! ### C21: the user and the session attached to a request -/

/-- C21, the code at the failing input. In every state reached from any store through
`register`, `login`, `refreshToken` and the other events, `verifyToken` answers the request
itself, whatever the header: it never calls `next()`, so it attaches no user and no
session. No event stores a session either: the number of stored sessions never grows, and
a login with any body returns no tokens and leaves the sessions as they are. -/
theorem no_request_authenticated (env : Env) (s0 : State) (events : List Event)
    (authorization : Option String) (body : LoginBody) (newSessionId : String) :
    AuthMiddleware.verifyToken env (run env s0 events) authorization =
      (.respond
        (if falsyString authorization || !jsStartsWith (authorization.getD "") "Bearer " then
          { status := 401, success := false, error := some "Access token required" }
        else
          { status := 500, success := false, error := some "Authentication failed" }),
        run env s0 events) ∧
    (run env s0 events).sessions.length ≤ s0.sessions.length ∧
    (AuthController.login env (run env s0 events) body newSessionId).2.1 = none ∧
    (AuthController.login env (run env s0 events) body newSessionId).2.2.sessions
      = (run env s0 events).sessions :=
  ⟨verifyToken_answer env _ authorization, sessions_length_run env s0 events,
    (login_sessions env _ body newSessionId).2.2.2.2.2,
    (login_sessions env _ body newSessionId).1⟩

/-! ### C22: the session `generateTokens` builds -/

/-- C22, the code at the failing input. Whenever `jwt.sign` has produced the two tokens,
`generateTokens` throws a `ReferenceError` while it builds the argument of
`new Session(...)`: the identifier `req` of `ipAddress: req?.ip` is bound nowhere. The
session is not saved and the object carrying `expiresIn` is not returned, so no session
created by `generateTokens` exists. -/
theorem generateTokens_creates_no_session (env : Env) (s : State) (user : User)
    (application : Option Application) (newId accessToken refreshToken : String)
    (haccess : env.jwtSign
      { userId := some user._id, username := some user.username,
        userType := some user.userType, applicationId := application.map (·._id) }
      env.JWT_SECRET env.ACCESS_TOKEN_EXPIRY s.now = .ok accessToken)
    (hrefresh : env.jwtSign { userId := some user._id, tokenType := some "refresh" }
      env.JWT_REFRESH_SECRET env.REFRESH_TOKEN_EXPIRY s.now = .ok refreshToken) :
    AuthController.generateTokens env s user application newId
      = .error (.referenceError "req") ∧
    step env s (.generateTokens user application newId) = s := by
  have h : AuthController.generateTokens env s user application newId
      = .error (.referenceError "req") := by
    unfold AuthController.generateTokens
    rw [haccess, hrefresh]
    rfl
  exact ⟨h, by simp only [step, h]⟩

/-- A call of `generateTokens` for user A one second after instant 0, with
`ACCESS_TOKEN_EXPIRY = 15m`: no session is stored. -/
theorem generateTokens_creates_no_session_witness :
    AuthController.generateTokens demoEnv demoState alice none "s2"
      = .error (.referenceError "req") ∧
    (step demoEnv demoState (.generateTokens alice none "s2")).sessions = demoState.sessions :=
  have h := generateTokens_creates_no_session demoEnv demoState alice none "s2"
    "k1.aaaaaaaaaaaaaaaaaaaaaaaa.1" "k2.aaaaaaaaaaaaaaaaaaaaaaaa.1" rfl rfl
  ⟨h.1, by rw [h.2]⟩

end Ark
